import Mathlib

/-!
Verification of the Valora backend (WillWSmith/valora).

The repository ships several revisions of the same Express backend:

* `src/backend/index.js` contains two concatenated revisions; the second one
  (lines 141-413) implements the host loop `fetchYahooQuote`, the session
  refresh `refreshSession` / `yahooFetch`, the exclusion-based `computeScore`
  (lines 349-368) and the `/api/quote` handler (lines 370-403).  It is
  embedded below in namespace `IndexJs`.
* `src/unnamed/part_003` is a further backend revision built around a
  recursive orchestrator `fetchYahooQuoteViaHttp` with an explicit session
  manager `getYahooSession` / `refreshYahooSession` and a clamp-based
  `computeScore` (lines 233-241).  It is embedded below in namespace
  `PartThree`.

Network effects are modelled by an oracle that answers each upstream request
in the order the code issues them (one counter per request kind).  Responses
are supplied at the granularity the code consumes them: cookie-issuing
responses as the list of extracted cookie strings, the crumb response as a
status plus body text, and quote responses as a status plus either a
malformed body or the decoded `quoteResponse.result[0]` record.  JavaScript
numbers are modelled as rationals; a field that is not a number
(`typeof x !== 'number'`) is the constructor `JsVal.nonNum`.  `Date.now()` is
a parameter `now`, fixed during one request.
-/

/-- A JavaScript value as far as the backend's `typeof x === 'number'` checks
can distinguish it: a number (modelled as a rational) or anything else
(null, undefined, string, ...). -/
inductive JsVal where
  | num (q : ℚ)
  | nonNum
  deriving DecidableEq

/-- `typeof x === 'number'`. -/
def JsVal.isNum : JsVal → Bool
  | .num _ => true
  | .nonNum => false

/-- Inject `number | null` into `JsVal` (`none` is `null`). -/
def JsVal.ofOpt : Option ℚ → JsVal
  | some q => .num q
  | none => .nonNum

/-- JavaScript `Math.round`: round half toward positive infinity. -/
def jsRound (q : ℚ) : ℤ := ⌊q + 1 / 2⌋

/-- JavaScript `Math.max` on two numbers (an executable `max` on ℚ). -/
def jsMax (a b : ℚ) : ℚ := if a ≤ b then b else a

/-- JavaScript `Math.min` on two numbers (an executable `min` on ℚ). -/
def jsMin (a b : ℚ) : ℚ := if a ≤ b then a else b

/-- Decidable equality of `Except` results (not derived in core). -/
instance {e a : Type} [DecidableEq e] [DecidableEq a] : DecidableEq (Except e a)
  | .error x, .error y =>
      if h : x = y then .isTrue (congrArg Except.error h)
      else .isFalse fun hh => h (Except.error.inj hh)
  | .error _, .ok _ => .isFalse fun hh => Except.noConfusion hh
  | .ok _, .error _ => .isFalse fun hh => Except.noConfusion hh
  | .ok x, .ok y =>
      if h : x = y then .isTrue (congrArg Except.ok h)
      else .isFalse fun hh => h (Except.ok.inj hh)

/-- JavaScript `String.prototype.trim`, modelled structurally over the
character list (whitespace stripped from both ends) so that it evaluates
inside the kernel. -/
def jsTrim (s : String) : String :=
  ⟨((s.data.dropWhile Char.isWhitespace).reverse.dropWhile
      Char.isWhitespace).reverse⟩

/-- JavaScript `String.prototype.toUpperCase`, modelled structurally over
the character list so that it evaluates inside the kernel. -/
def jsToUpper (s : String) : String := ⟨s.data.map Char.toUpper⟩

/-- Truthiness of a `string | null` value: `null` and the empty string are
falsy, every other string is truthy. -/
def strTruthy : Option String → Bool
  | none => false
  | some t => decide (t ≠ ("" : String))

/-- The decoded `quoteResponse.result[0]` record of an upstream quote
payload, with just the fields the backend reads. -/
structure RawResult where
  symbol : Option String
  regularMarketPrice : JsVal
  trailingPE : JsVal
  forwardPE : JsVal
  deriving DecidableEq

/-- Body of a 2xx quote response: `response.json()` either throws
(`malformed`) or yields a payload whose `quoteResponse?.result?.[0]` is
`result`. -/
inductive Body where
  | malformed
  | parsed (result : Option RawResult)
  deriving DecidableEq

/-- Outcome of one `fetch` of a quote URL: a network error (the promise
rejects) or an HTTP response with a status and a body. -/
inductive QuoteResp where
  | netErr
  | http (status : ℕ) (body : Body)
  deriving DecidableEq

/-- Outcome of a cookie-issuing request (the `fc.yahoo.com` bootstrap of
part_003, the `finance.yahoo.com` landing page of index.js): a network
error, or a response whose Set-Cookie headers extract to `cookies`. -/
inductive CookiesResp where
  | netErr
  | ok (cookies : List String)
  deriving DecidableEq

/-- Outcome of the `getcrumb` request: a network error, or a response with a
status, extracted Set-Cookie strings and a body text. -/
inductive CrumbResp where
  | netErr
  | resp (status : ℕ) (cookies : List String) (body : String)
  deriving DecidableEq

/-- The network environment: the n-th request of each kind issued by the
process receives the listed outcome. -/
structure Oracle where
  cookiesR : ℕ → CookiesResp
  crumbR : ℕ → CrumbResp
  quote : ℕ → QuoteResp

/-- Responses the `/api/quote` handlers can produce, with the HTTP status
they are sent with. -/
inductive HResp (α : Type) where
  | missingSymbol
  | notFound
  | ok (v : α)
  | rejected
  | upstreamFail
  deriving DecidableEq

/-- The HTTP status code of each handler response. -/
def HResp.code {α : Type} : HResp α → ℕ
  | .missingSymbol => 400
  | .notFound => 404
  | .ok _ => 200
  | .rejected => 400
  | .upstreamFail => 502

/-! ## The shared LRU cache (`new LRU({ max: 100, ttl: 1000 * 60 * 5 })`)

Entries are kept most-recently-used first.  `hasKey` treats expired entries
as absent, `get` moves a live hit to the front (recency bookkeeping) and
deletes a stale hit, `set` replaces the keyed entry, stamps a fresh TTL and
truncates to the capacity of 100 by dropping least-recently-used entries. -/

structure CacheEntry (α : Type) where
  key : String
  val : α
  expiresAt : ℕ
  deriving DecidableEq

structure Cache (α : Type) where
  entries : List (CacheEntry α)
  deriving DecidableEq

def Cache.hasKey {α : Type} (c : Cache α) (k : String) (now : ℕ) : Bool :=
  c.entries.any fun e => e.key == k && decide (now < e.expiresAt)

def Cache.get {α : Type} (c : Cache α) (k : String) (now : ℕ) :
    Option α × Cache α :=
  match c.entries.find? (fun e => e.key == k) with
  | none => (none, c)
  | some e =>
      if now < e.expiresAt then
        (some e.val, ⟨e :: c.entries.filter fun x => !(x.key == k)⟩)
      else
        (none, ⟨c.entries.filter fun x => !(x.key == k)⟩)

def Cache.set {α : Type} (c : Cache α) (k : String) (v : α) (now : ℕ) :
    Cache α :=
  ⟨((⟨k, v, now + 300000⟩ : CacheEntry α) ::
      c.entries.filter fun x => !(x.key == k)).take 100⟩

/-- The list `values` built by index.js `computeScore` lines 354-360 (and,
word for word, by claim C1): the reciprocal of each input that is a number
and strictly positive, in source order. -/
def posReciprocals (pe forwardPE : JsVal) : List ℚ :=
  (match pe with
   | .num p => if 0 < p then [1 / p] else []
   | .nonNum => []) ++
  (match forwardPE with
   | .num f => if 0 < f then [1 / f] else []
   | .nonNum => [])

namespace IndexJs

/-! ## src/backend/index.js, second revision (lines 141-413) -/

/-- `computeScore` (index.js lines 349-368): inputs that are numbers and
strictly positive contribute their reciprocal; with no contribution the
neutral 50 is returned, else `Math.max(0, Math.min(100, Math.round(average *
100)))`. -/
def computeScore (pe forwardPE : JsVal) : ℚ :=
  if !pe.isNum && !forwardPE.isNum then 50
  else
    let values := posReciprocals pe forwardPE
    if values = [] then 50
    else
      let average := values.sum / (values.length : ℚ)
      jsMax 0 (jsMin 100 ((jsRound (average * 100) : ℤ) : ℚ))

end IndexJs

namespace PartThree

/-! ## src/unnamed/part_003 -/

/-- `computeScore` (part_003 lines 233-241): unless BOTH inputs are numbers
the neutral 50 is returned; otherwise each input is clamped below by 0.0001
(not excluded), and the result is `Math.min(100, Math.max(0, (1/pe' +
1/forwardPE') * 10))`, with no rounding. -/
def computeScore (pe forwardPE : JsVal) : ℚ :=
  match pe, forwardPE with
  | .num p, .num f =>
      let invPE := 1 / jsMax p (1 / 10000)
      let invForwardPE := 1 / jsMax f (1 / 10000)
      jsMin 100 (jsMax 0 ((invPE + invForwardPE) * 10))
  | _, _ => 50

end PartThree

namespace IndexJs

/-! ### index.js (second revision) session handling and host loop

`refreshSession` (lines 217-262), `yahooFetch` (lines 264-293) and
`fetchYahooQuote` (lines 295-347).  The same `Oracle` type serves here:
`cookiesR` answers the landing-page request, `crumbR` the getcrumb request
(its cookie list is ignored, index.js never reads it), `quote` the quote
requests.  The state carries the session slot and the request counters; the
number of quote requests issued is `quotes`. -/

/-- The module-level `session` object: `{ cookie, crumb, expiresAt }`. -/
structure Session where
  cookie : Option String
  crumb : Option String
  expiresAt : ℕ
  deriving DecidableEq

structure St where
  session : Session
  landings : ℕ
  crumbs : ℕ
  quotes : ℕ
  deriving DecidableEq

/-- `parseCookies` (lines 210-215): keep the non-empty cookie strings and
join them; index.js then applies `|| null`, so an empty join is `null`. -/
def parseCookies (rawCookies : List String) : Option String :=
  let parts := rawCookies.filter fun c => !(c == (""))
  if parts = [] then none else some (String.intercalate ("; ") parts)

/-- `refreshSession` (lines 217-262).  One try/catch wraps the whole body:
a network error from either fetch lands in the catch, which blanks the
session and stamps a 5-minute expiry.  A cookie-less landing response keeps
a blank session with a 30-minute expiry; a non-2xx crumb response keeps the
cookies and nulls the crumb. -/
def refreshSession (o : Oracle) (now : ℕ) (s : St) : St :=
  match o.cookiesR s.landings with
  | .netErr =>
      { s with landings := s.landings + 1,
               session := { cookie := none, crumb := none, expiresAt := now + 300000 } }
  | .ok landingCookies =>
      match parseCookies landingCookies with
      | none =>
          { s with landings := s.landings + 1,
                   session := { cookie := none, crumb := none, expiresAt := now + 1800000 } }
      | some ck =>
          match o.crumbR s.crumbs with
          | .netErr =>
              { s with landings := s.landings + 1, crumbs := s.crumbs + 1,
                       session := { cookie := none, crumb := none, expiresAt := now + 300000 } }
          | .resp status _ body =>
              let crumb : Option String :=
                if 200 ≤ status ∧ status < 300 then
                  (if jsTrim body = ("") then none else some (jsTrim body))
                else none
              { s with landings := s.landings + 1, crumbs := s.crumbs + 1,
                       session := { cookie := some ck, crumb := crumb,
                                    expiresAt := now + 1800000 } }

/-- The body of `yahooFetch` up to the 401/403 retry (lines 264-281): refresh
the session when the cookie is falsy or expired, then issue one quote
request and hand back the response. -/
def yahooFetchOnce (o : Oracle) (now : ℕ) (s : St) : St × QuoteResp :=
  let s1 := if !(strTruthy s.session.cookie) || decide (s.session.expiresAt ≤ now) then
              refreshSession o now s
            else s
  ({ s1 with quotes := s1.quotes + 1 }, o.quote s1.quotes)

/-- `yahooFetch` with `retry = true` as every caller uses it (lines
283-292): a 401/403 response clears the session, refreshes it and repeats
the body once with `retry = false`, returning whatever comes back then. -/
def yahooFetch (o : Oracle) (now : ℕ) (s : St) : St × QuoteResp :=
  let step1 := yahooFetchOnce o now s
  match step1.2 with
  | .http status _ =>
      if status = 401 ∨ status = 403 then
        let s2 := { step1.1 with
                    session := { cookie := none, crumb := none, expiresAt := 0 } }
        yahooFetchOnce o now (refreshSession o now s2)
      else step1
  | .netErr => step1

/-- The normalized quote of index.js (lines 327-332): mandatory numeric
price, optional numeric ratios. -/
structure BQuote where
  symbol : String
  price : ℚ
  pe : Option ℚ
  forwardPE : Option ℚ
  deriving DecidableEq

/-- Failures of one host iteration of `fetchYahooQuote`: a network error
(no `.status`), a non-ok HTTP response (status kept on the error), a JSON
parse failure, or the `Invalid price data` error (no `.status`). -/
inductive BErr where
  | net
  | httpE (status : ℕ)
  | parse
  | invalidPrice
  deriving DecidableEq

/-- `error.status` of a `BErr` (`undefined` for errors without one). -/
def BErr.statusOf : BErr → Option ℕ
  | .httpE s => some s
  | _ => none

/-- Lines 322-332 of index.js: `typeof price !== 'number'` throws
`Invalid price data`; the symbol falls back to the requested one when the
result has none and is uppercased; non-numeric ratios become `null`. -/
def normalizeResult (symbol : String) (r : RawResult) : Except BErr BQuote :=
  match r.regularMarketPrice with
  | .nonNum => .error .invalidPrice
  | .num price =>
      .ok { symbol := jsToUpper (match r.symbol with
                       | some t => if t = ("") then symbol else t
                       | none => symbol),
            price := price,
            pe := (match r.trailingPE with
                   | .num q => some q
                   | .nonNum => none),
            forwardPE := (match r.forwardPE with
                          | .num q => some q
                          | .nonNum => none) }

/-- One iteration of the host loop of `fetchYahooQuote` (lines 300-337);
`.error` is the caught exception stored into `lastError`, `.ok` is a
`return` out of the whole function. -/
def tryHost (o : Oracle) (now : ℕ) (symbol : String) (s : St) :
    St × Except BErr (Option BQuote) :=
  let step := yahooFetch o now s
  match step.2 with
  | .netErr => (step.1, .error .net)
  | .http status body =>
      if status = 404 then (step.1, .ok none)
      else if ¬ (200 ≤ status ∧ status < 300) then (step.1, .error (.httpE status))
      else
        match body with
        | .malformed => (step.1, .error .parse)
        | .parsed none => (step.1, .ok none)
        | .parsed (some r) =>
            match normalizeResult symbol r with
            | .error e => (step.1, .error e)
            | .ok q => (step.1, .ok (some q))

/-- `fetchYahooQuote` (lines 295-347): try `query1` then `query2`; a
`return` inside an iteration ends the loop, an error is stored as
`lastError` and the next host is tried; after the loop the last error is
thrown with `status = status || 502`. -/
def fetchYahooQuote (o : Oracle) (now : ℕ) (symbol : String) (s : St) :
    St × Except ℕ (Option BQuote) :=
  let first := tryHost o now symbol s
  match first.2 with
  | .ok v => (first.1, .ok v)
  | .error _ =>
      let second := tryHost o now symbol first.1
      match second.2 with
      | .ok v => (second.1, .ok v)
      | .error e2 => (second.1, .error (e2.statusOf.getD 502))

/-- The `{ ...quote, score }` payload cached and returned by the index.js
`/api/quote` handler (lines 389-392). -/
structure Scored where
  symbol : String
  price : ℚ
  pe : Option ℚ
  forwardPE : Option ℚ
  score : ℚ
  deriving DecidableEq

/-- The error mapping of the index.js handler's catch block (lines
393-401): thrown statuses of 404 give HTTP 404, other 4xx give HTTP 400,
everything else gives HTTP 502. -/
def mapStatus (st : ℕ) : HResp Scored :=
  if st = 404 then .notFound
  else if 400 ≤ st ∧ st < 500 then .rejected
  else .upstreamFail

structure HState where
  cache : Cache Scored
  fs : St
  deriving DecidableEq

/-- The index.js `/api/quote` handler (lines 370-403): the symbol parameter
is defaulted to the empty string and trimmed; empty gives 400; a cache hit
under `"quote:" + symbol.toUpperCase()` returns the cached record;
otherwise `fetchYahooQuote` runs, `null` maps to 404, errors map via
`mapStatus`, and a quote is scored, cached once and returned. -/
def quoteHandler (o : Oracle) (now : ℕ) (symbolQ : Option String)
    (h : HState) : HState × HResp Scored :=
  let symbol := jsTrim (symbolQ.getD (""))
  if symbol = ("") then (h, .missingSymbol)
  else
    let cacheKey := ("quote:") ++ jsToUpper symbol
    if h.cache.hasKey cacheKey now then
      match h.cache.get cacheKey now with
      | (some v, c) => ({ h with cache := c }, .ok v)
      | (none, c) => ({ h with cache := c }, .upstreamFail)
    else
      match fetchYahooQuote o now symbol h.fs with
      | (fs, .error st) => ({ h with fs := fs }, mapStatus st)
      | (fs, .ok none) => ({ h with fs := fs }, .notFound)
      | (fs, .ok (some q)) =>
          let score := computeScore (JsVal.ofOpt q.pe) (JsVal.ofOpt q.forwardPE)
          let payload : Scored :=
            { symbol := q.symbol, price := q.price, pe := q.pe,
              forwardPE := q.forwardPE, score := score }
          ({ cache := h.cache.set cacheKey payload now, fs := fs }, .ok payload)

end IndexJs

/-- The scoring formula exactly as claim C1 (and spec section 4.4) words it:
reciprocals of the strictly positive numeric inputs, neutral 50 fallbacks,
otherwise `round(clamp(mean(reciprocals) * 100, 0, 100))` (clamp before
round). -/
def computeScoreSpec (pe forwardPE : JsVal) : ℚ :=
  if !pe.isNum && !forwardPE.isNum then 50
  else
    let recips := posReciprocals pe forwardPE
    if recips = [] then 50
    else ((jsRound (jsMax 0 (jsMin 100 ((recips.sum / (recips.length : ℚ)) * 100))) : ℤ) : ℚ)

lemma jsMax_eq (a b : ℚ) : jsMax a b = max a b := (max_def a b).symm

lemma jsMin_eq (a b : ℚ) : jsMin a b = min a b := (min_def a b).symm

lemma jsRound_nonneg {q : ℚ} (hq : 0 ≤ q) : 0 ≤ jsRound q := by
  have : (0 : ℤ) ≤ ⌊q + 1 / 2⌋ := Int.le_floor.mpr (by push_cast; linarith)
  simpa [jsRound] using this

lemma jsRound_hundred : jsRound (100 : ℚ) = 100 := by
  have : ⌊(100 : ℚ) + 1 / 2⌋ = 100 := by
    rw [Int.floor_eq_iff]
    constructor <;> norm_num
  simpa [jsRound] using this

/-- Clamping after rounding agrees with rounding after clamping on positive
inputs, so index.js's `max(0, min(100, round(x)))` matches the spec's
`round(clamp(x, 0, 100))`. -/
lemma clamp_jsRound {q : ℚ} (hq : 0 < q) :
    jsMax 0 (jsMin 100 ((jsRound q : ℤ) : ℚ)) = ((jsRound (jsMax 0 (jsMin 100 q)) : ℤ) : ℚ) := by
  rw [jsMax_eq, jsMin_eq, jsMax_eq, jsMin_eq]
  rcases le_or_lt q 100 with h | h
  · have h0 : (0 : ℤ) ≤ jsRound q := jsRound_nonneg hq.le
    have h100 : jsRound q ≤ 100 := by
      have hle : ⌊q + 1 / 2⌋ ≤ ⌊(100 : ℚ) + 1 / 2⌋ := Int.floor_le_floor (by linarith)
      have := jsRound_hundred
      simp only [jsRound] at *
      omega
    have hmin : min (100 : ℚ) q = q := min_eq_right h
    have hmax : max (0 : ℚ) q = q := max_eq_right hq.le
    rw [hmin, hmax]
    have : min (100 : ℚ) ((jsRound q : ℤ) : ℚ) = ((jsRound q : ℤ) : ℚ) := by
      apply min_eq_right
      exact_mod_cast h100
    rw [this]
    apply max_eq_right
    exact_mod_cast h0
  · have h100 : (100 : ℤ) ≤ jsRound q := by
      have : ⌊(100 : ℚ) + 1 / 2⌋ ≤ ⌊q + 1 / 2⌋ := Int.floor_le_floor (by linarith)
      have := jsRound_hundred
      simp only [jsRound] at *
      omega
    have hmin : min (100 : ℚ) q = 100 := min_eq_left h.le
    have hmax : max (0 : ℚ) (100 : ℚ) = 100 := by norm_num
    rw [hmin, hmax, jsRound_hundred]
    have : min (100 : ℚ) ((jsRound q : ℤ) : ℚ) = 100 := by
      apply min_eq_left
      exact_mod_cast h100
    rw [this]
    norm_num

/-- Every element of the reciprocal list is strictly positive. -/
lemma posReciprocals_pos (pe forwardPE : JsVal) :
    ∀ x ∈ posReciprocals pe forwardPE, 0 < x := by
  intro x hx
  unfold posReciprocals at hx
  rcases List.mem_append.mp hx with h | h
  · rcases pe with p | _
    · by_cases hp : 0 < p
      · simp only [hp, if_true, List.mem_singleton] at h
        subst h; positivity
      · simp [hp] at h
    · simp at h
  · rcases forwardPE with f | _
    · by_cases hf : 0 < f
      · simp only [hf, if_true, List.mem_singleton] at h
        subst h; positivity
      · simp [hf] at h
    · simp at h

/-- index.js's `computeScore` implements the claim's formula. -/
lemma computeScore_eq_spec (pe forwardPE : JsVal) :
    IndexJs.computeScore pe forwardPE = computeScoreSpec pe forwardPE := by
  unfold IndexJs.computeScore computeScoreSpec
  by_cases hb : (!pe.isNum && !forwardPE.isNum) = true
  · simp [hb]
  · rw [if_neg hb, if_neg hb]
    by_cases he : posReciprocals pe forwardPE = []
    · simp [he]
    · rw [if_neg he, if_neg he]
      have hsum : 0 < (posReciprocals pe forwardPE).sum :=
        List.sum_pos _ (posReciprocals_pos pe forwardPE) he
      have hlen : 0 < ((posReciprocals pe forwardPE).length : ℚ) := by
        have : 0 < (posReciprocals pe forwardPE).length := List.length_pos.mpr he
        exact_mod_cast this
      have hmean : 0 < (posReciprocals pe forwardPE).sum /
          ((posReciprocals pe forwardPE).length : ℚ) * 100 := by positivity
      exact clamp_jsRound hmean

namespace PartThree

/-! ### part_003 session manager and fetch orchestrator

The module-level `yahooSession` object, the `refreshYahooSession` /
`getYahooSession` pair (lines 98-163) and the recursive
`fetchYahooQuoteViaHttp` (lines 165-231).  The interpreter threads a state
`St` holding the session plus one request counter per kind and a trace of
observable events (session refreshes and quote attempts, in order). -/

/-- The `yahooSession` module-level object: `{ crumb, cookie, expiresAt }`. -/
structure Session where
  crumb : Option String
  cookie : Option String
  expiresAt : ℕ
  deriving DecidableEq

/-- Observable events of one orchestrator run: a full execution of
`refreshYahooSession`, or one quote request against host index `host`. -/
inductive Ev where
  | refresh
  | attempt (host : ℕ)
  deriving DecidableEq

def Ev.isAttempt : Ev → Bool
  | .attempt _ => true
  | .refresh => false

/-- Interpreter state: the session slot, the per-kind request counters used
to index the oracle, and the event trace. -/
structure St where
  session : Session
  boots : ℕ
  crumbs : ℕ
  quotes : ℕ
  trace : List Ev
  deriving DecidableEq

/-- `buildCookieHeader` (part_003 lines 94-96): join with a semicolon,
`null` when empty. -/
def buildCookieHeader (cookies : List String) : Option String :=
  if cookies = [] then none else some (String.intercalate ("; ") cookies)

/-- `refreshYahooSession` (part_003 lines 98-148).  Both fetches sit in
their own try/catch whose catch only logs, so the function always completes:
a bootstrap network error leaves the collected cookies empty, a crumb
network error leaves the crumb text empty, and the session slot is then
replaced unconditionally with whatever was collected plus a fresh 30-minute
expiry. -/
def refreshYahooSession (o : Oracle) (now : ℕ) (s : St) : St × Session :=
  let collected1 : List String :=
    match o.cookiesR s.boots with
    | .netErr => []
    | .ok bootstrapCookies => if bootstrapCookies = [] then [] else bootstrapCookies
  let step2 : List String × String :=
    match o.crumbR s.crumbs with
    | .netErr => (collected1, (""))
    | .resp status crumbCookies body =>
        ((if crumbCookies = [] then collected1 else crumbCookies),
         (if 200 ≤ status ∧ status < 300 then jsTrim body else ("")))
  let sess : Session :=
    { crumb := if step2.2 = ("") then none else some step2.2,
      cookie := buildCookieHeader step2.1,
      expiresAt := now + 1800000 }
  ({ session := sess, boots := s.boots + 1, crumbs := s.crumbs + 1,
     quotes := s.quotes, trace := s.trace ++ [Ev.refresh] }, sess)

/-- `getYahooSession` (part_003 lines 150-163).  The shortcut returns the
current session when it has a truthy crumb and an unexpired timestamp;
otherwise `refreshYahooSession` runs.  Because `refreshYahooSession` never
throws (see above), the catch branch of the source (return the stale
session, else rethrow) is unreachable and the embedding is total. -/
def getYahooSession (o : Oracle) (now : ℕ) (forceRefresh : Bool) (s : St) :
    St × Session :=
  if forceRefresh = false ∧ strTruthy s.session.crumb = true ∧
      now < s.session.expiresAt then
    (s, s.session)
  else
    refreshYahooSession o now s

/-- The quote record part_003 builds (lines 225-230): raw fields passed
through with no numeric validation. -/
structure HQuote where
  symbol : Option String
  price : JsVal
  pe : JsVal
  forwardPE : JsVal
  deriving DecidableEq

/-- Errors thrown by `fetchYahooQuoteViaHttp`: a network error propagated
after retries, a JSON parse failure (`resp.json()` throws, no `.status`
field), or the explicit error object with `error.status = resp.status`. -/
inductive Err where
  | net
  | parse
  | http (status : ℕ)
  deriving DecidableEq

/-- `fetchYahooQuoteViaHttp` (part_003 lines 165-231), with a fuel argument
standing in for the call stack; `fuel = 0` returns `none` (never reached
from the wrapper, see `fetchYahooQuoteViaHttp_total`).  The host list is
`YAHOO_QUOTE_HOSTS` of length 2, with `hosts[hostIndex] || hosts[0]`
fallback. -/
def fetchYahooQuoteViaHttp (o : Oracle) (now : ℕ) :
    ℕ → ℕ → ℕ → St → Option (St × Except Err (Option HQuote))
  | 0, _, _, _ => none
  | fuel + 1, attempt, hostIndex, s =>
    let s1 := (getYahooSession o now (decide (0 < attempt)) s).1
    let host := if hostIndex < 2 then hostIndex else 0
    let s2 : St :=
      { s1 with quotes := s1.quotes + 1, trace := s1.trace ++ [Ev.attempt host] }
    match o.quote s1.quotes with
    | .netErr =>
        if attempt < 2 then
          fetchYahooQuoteViaHttp o now fuel (attempt + 1) hostIndex
            (refreshYahooSession o now s2).1
        else if hostIndex + 1 < 2 then
          fetchYahooQuoteViaHttp o now fuel attempt (hostIndex + 1) s2
        else
          some (s2, .error .net)
    | .http status body =>
        if (status = 401 ∨ status = 403) ∧ attempt < 2 then
          fetchYahooQuoteViaHttp o now fuel (attempt + 1) hostIndex
            (refreshYahooSession o now s2).1
        else if 500 ≤ status ∧ hostIndex + 1 < 2 then
          fetchYahooQuoteViaHttp o now fuel attempt (hostIndex + 1) s2
        else if ¬ (200 ≤ status ∧ status < 300) then
          some (s2, .error (.http status))
        else
          match body with
          | .malformed => some (s2, .error .parse)
          | .parsed none => some (s2, .ok none)
          | .parsed (some r) =>
              some (s2, .ok (some
                { symbol := r.symbol, price := r.regularMarketPrice,
                  pe := r.trailingPE, forwardPE := r.forwardPE }))

/-- `fetchQuoteData` (part_003 lines 243-245): one orchestrator run from
`attempt = 0`, `hostIndex = 0`.  Fuel 5 always suffices
(`fetchYahooQuoteViaHttp_total`); the default is unreachable. -/
def runFetch (o : Oracle) (now : ℕ) (s : St) : St × Except Err (Option HQuote) :=
  (fetchYahooQuoteViaHttp o now 5 0 0 s).getD (s, .error .net)

/-- The response record `{ ...quote, score }` cached and returned by the
part_003 `/api/quote` handler. -/
structure Scored where
  symbol : Option String
  price : JsVal
  pe : JsVal
  forwardPE : JsVal
  score : ℚ
  deriving DecidableEq

/-- The error mapping of the part_003 handler's catch block (lines 275-287):
`status 404` becomes HTTP 404, other 4xx statuses become HTTP 400, anything
else (including errors with no status) becomes HTTP 502. -/
def mapQuoteError (e : Err) : HResp Scored :=
  match e with
  | .http s => if s = 404 then .notFound
               else if 400 ≤ s ∧ s < 500 then .rejected
               else .upstreamFail
  | .net => .upstreamFail
  | .parse => .upstreamFail

/-- Shared state of the part_003 process: the LRU cache and the fetch
side of the state (session slot plus request counters). -/
structure HState where
  cache : Cache Scored
  fs : St
  deriving DecidableEq

/-- The part_003 `/api/quote` handler (lines 253-288): missing symbol gives
400; a cache hit under `"quote:" + symbol.toUpperCase()` returns the cached
record; otherwise one orchestrator run, whose `null` maps to 404, whose
error maps via `mapQuoteError`, and whose quote is scored, cached once and
returned.  (On a cache hit `cache.get` cannot miss, since `cache.has` just
returned true at the same instant; the `upstreamFail` arm is dead code.) -/
def quoteHandler (o : Oracle) (now : ℕ) (symbolQ : Option String)
    (h : HState) : HState × HResp Scored :=
  match symbolQ with
  | none => (h, .missingSymbol)
  | some symbol =>
    if symbol = ("") then (h, .missingSymbol)
    else
      let cacheKey := ("quote:") ++ jsToUpper symbol
      if h.cache.hasKey cacheKey now then
        match h.cache.get cacheKey now with
        | (some v, c) => ({ h with cache := c }, .ok v)
        | (none, c) => ({ h with cache := c }, .upstreamFail)
      else
        match runFetch o now h.fs with
        | (fs, .error e) => ({ h with fs := fs }, mapQuoteError e)
        | (fs, .ok none) => ({ h with fs := fs }, .notFound)
        | (fs, .ok (some q)) =>
            let score := computeScore q.pe q.forwardPE
            let responseData : Scored :=
              { symbol := q.symbol, price := q.price, pe := q.pe,
                forwardPE := q.forwardPE, score := score }
            ({ cache := h.cache.set cacheKey responseData now, fs := fs },
             .ok responseData)

end PartThree

/-! ## Test fixtures shared by witnesses and counterexamples -/

/-- An oracle whose every request fails with a network error. -/
def oracleDown : Oracle :=
  { cookiesR := fun _ => .netErr, crumbR := fun _ => .netErr,
    quote := fun _ => .netErr }

/-- An oracle whose refresh requests succeed and whose quote requests all
answer with the given response. -/
def oracleQuote (r : QuoteResp) : Oracle :=
  { cookiesR := fun _ => .ok [("A3=d=abc")],
    crumbR := fun _ => .resp 200 [] ("crumbtok"),
    quote := fun _ => r }

/-- A part_003 state whose session is valid (truthy crumb, unexpired at
`now = 0`). -/
def stValid : PartThree.St :=
  { session := { crumb := some ("tok"), cookie := some ("ck"), expiresAt := 1000000 },
    boots := 0, crumbs := 0, quotes := 0, trace := [] }

/-- An index.js state whose session is valid (truthy cookie, unexpired at
`now = 0`). -/
def stValidB : IndexJs.St :=
  { session := { cookie := some ("ck"), crumb := some ("tok"), expiresAt := 1000000 },
    landings := 0, crumbs := 0, quotes := 0 }

/-- A part_003 state holding a previously valid session that is stale at
`now = 10` (its crumb is truthy, its expiry is in the past). -/
def stStale : PartThree.St :=
  { session := { crumb := some ("tok"), cookie := some ("ck"), expiresAt := 5 },
    boots := 0, crumbs := 0, quotes := 0, trace := [] }

/-- A part_003 state with no prior session at all (the initial module
state: null crumb, null cookie, expiry 0). -/
def stEmpty : PartThree.St :=
  { session := { crumb := none, cookie := none, expiresAt := 0 },
    boots := 0, crumbs := 0, quotes := 0, trace := [] }

/-- Number of events strictly between the first and the second attempt of a
trace: drop up to and including the first attempt, then count events until
the next attempt. -/
def refreshesBetween (t : List PartThree.Ev) : ℕ :=
  (((t.dropWhile fun e => !(e.isAttempt)).drop 1).takeWhile
    fun e => !(e.isAttempt)).length

/-- The all-404 oracle. -/
def oracle404 : Oracle := oracleQuote (.http 404 (.parsed none))

/-- Empty caches for the two handlers. -/
def emptyCacheP : Cache PartThree.Scored := ⟨[]⟩

def emptyCacheB : Cache IndexJs.Scored := ⟨[]⟩

/-- The part_003 state after the single 404 attempt from `stValid`. -/
def st404P : PartThree.St :=
  { stValid with quotes := stValid.quotes + 1,
                 trace := stValid.trace ++ [PartThree.Ev.attempt 0] }

/-- The index.js state after the single 404 attempt from `stValidB`. -/
def st404B : IndexJs.St := { stValidB with quotes := stValidB.quotes + 1 }

/-- `number | null` view of a raw field: numbers survive, anything else
becomes `null`. -/
def JsVal.toOpt : JsVal → Option ℚ
  | .num q => some q
  | .nonNum => none

/-- A raw upstream result whose price is non-numeric. -/
def rawBadPrice : RawResult :=
  { symbol := some ("AAPL"), regularMarketPrice := .nonNum,
    trailingPE := .num 25, forwardPE := .num 20 }

/-- A scored record and caches holding it, for the C7 witness. -/
def scoredSample : PartThree.Scored :=
  { symbol := some ("AAPL"), price := .num 150, pe := .num 25,
    forwardPE := .num 20, score := 5 }

def scoredSampleB : IndexJs.Scored :=
  { symbol := ("AAPL"), price := 150, pe := some 25, forwardPE := some 20,
    score := 5 }

def cacheWithAapl : Cache PartThree.Scored :=
  ⟨[⟨("quote:AAPL"), scoredSample, 1000⟩]⟩

def cacheWithAaplB : Cache IndexJs.Scored :=
  ⟨[⟨("quote:AAPL"), scoredSampleB, 1000⟩]⟩

/-- A raw upstream result with numeric price and ratios, and the quote
records the two backends derive from it. -/
def rawGood : RawResult :=
  { symbol := some ("AAPL"), regularMarketPrice := .num 150,
    trailingPE := .num 25, forwardPE := .num 20 }

def oracle200 : Oracle := oracleQuote (.http 200 (.parsed (some rawGood)))

def qPSample : PartThree.HQuote :=
  { symbol := some ("AAPL"), price := .num 150, pe := .num 25,
    forwardPE := .num 20 }

def qBSample : IndexJs.BQuote :=
  { symbol := ("AAPL"), price := 150, pe := some 25, forwardPE := some 20 }

def stAfterP : PartThree.St :=
  { stValid with quotes := stValid.quotes + 1,
                 trace := stValid.trace ++ [PartThree.Ev.attempt 0] }

def stAfterB : IndexJs.St := { stValidB with quotes := stValidB.quotes + 1 }


namespace PartThree

lemma refresh_fst (o : Oracle) (now : ℕ) (s : St) :
    (refreshYahooSession o now s).1 =
      { session := (refreshYahooSession o now s).2, boots := s.boots + 1,
        crumbs := s.crumbs + 1, quotes := s.quotes,
        trace := s.trace ++ [Ev.refresh] } := rfl

lemma refresh_expiry (o : Oracle) (now : ℕ) (s : St) :
    (refreshYahooSession o now s).2.expiresAt = now + 1800000 := rfl

lemma getYahooSession_force (o : Oracle) (now : ℕ) (s : St) :
    getYahooSession o now true s = refreshYahooSession o now s := by
  simp [getYahooSession]

lemma getYahooSession_valid (o : Oracle) (now : ℕ) (s : St)
    (h1 : strTruthy s.session.crumb = true) (h2 : now < s.session.expiresAt) :
    getYahooSession o now false s = (s, s.session) := by
  simp [getYahooSession, h1, h2]

end PartThree

/-! ## C10: termination of the recursive retry function -/

/-- Claim C10: `fetchYahooQuoteViaHttp` terminates for every symbol, attempt
count and host index: every recursive call either increments the attempt
counter (guarded by `attempt < 2`) or increments the host index (guarded by
`hostIndex + 1 < 2`), so the recursion depth is bounded by
`(2 - attempt) + (2 - hostIndex)` and any fuel beyond that bound is never
exhausted. -/
theorem fetchYahooQuoteViaHttp_total (o : Oracle) (now : ℕ) :
    ∀ (fuel attempt hostIndex : ℕ) (s : PartThree.St),
      (2 - attempt) + (2 - hostIndex) < fuel →
      (PartThree.fetchYahooQuoteViaHttp o now fuel attempt hostIndex s).isSome = true := by
  intro fuel
  induction fuel with
  | zero => intro attempt hostIndex s h; omega
  | succ fuel ih =>
      intro attempt hostIndex s h
      simp only [PartThree.fetchYahooQuoteViaHttp]
      rcases o.quote ((PartThree.getYahooSession o now (decide (0 < attempt)) s).1.quotes) with _ | ⟨status, body⟩ <;>
        simp only []
      · by_cases h1 : attempt < 2
        · rw [if_pos h1]
          exact ih (attempt + 1) hostIndex _ (by omega)
        · rw [if_neg h1]
          by_cases h2 : hostIndex + 1 < 2
          · rw [if_pos h2]
            exact ih attempt (hostIndex + 1) _ (by omega)
          · rw [if_neg h2]; simp
      · by_cases h1 : (status = 401 ∨ status = 403) ∧ attempt < 2
        · rw [if_pos h1]
          exact ih (attempt + 1) hostIndex _ (by omega)
        · rw [if_neg h1]
          by_cases h2 : 500 ≤ status ∧ hostIndex + 1 < 2
          · rw [if_pos h2]
            exact ih attempt (hostIndex + 1) _ (by omega)
          · rw [if_neg h2]
            by_cases h3 : ¬ (200 ≤ status ∧ status < 300)
            · rw [if_pos h3]; simp
            · rw [if_neg h3]
              rcases body with _ | (_ | r) <;> simp

/-- Witness for C10 at the entry point values `fuel = 5`,
`attempt = hostIndex = 0` used by `runFetch`. -/
theorem fetchYahooQuoteViaHttp_total_witness :
    (2 - 0) + (2 - 0) < 5 ∧
      (PartThree.fetchYahooQuoteViaHttp oracleDown 0 5 0 0 stValid).isSome = true :=
  ⟨by decide, fetchYahooQuoteViaHttp_total oracleDown 0 5 0 0 stValid (by decide)⟩

/-! ## C2: behaviour of getYahooSession when the refresh network calls fail -/

/-- Counterexample to claim C2.  With every network call failing and a
prior valid-but-stale session, `getYahooSession(false)` does NOT return the
stale session: `refreshYahooSession` swallows the network errors, blanks
the session and returns the blank one.  And with no prior session at all,
no failure propagates either: the same blank session is returned. -/
theorem getYahooSession_stale_counterexample :
    (PartThree.getYahooSession oracleDown 10 false stStale).2 ≠ stStale.session ∧
    (PartThree.getYahooSession oracleDown 10 false stStale).2 =
      { crumb := none, cookie := none, expiresAt := 10 + 1800000 } ∧
    (PartThree.getYahooSession oracleDown 10 false stEmpty).2 =
      { crumb := none, cookie := none, expiresAt := 10 + 1800000 } := by
  refine ⟨?_, ?_, ?_⟩ <;> decide

/-- Amended C2: `refreshYahooSession` catches the network failures of both
its requests internally and always completes, so when both fail it replaces
the session with a blank one (null crumb, null cookie) carrying a fresh
30-minute expiry; `getYahooSession(false)` therefore never propagates a
refresh failure and never falls back to the stale session: it returns the
current session when it is valid, and otherwise the blank refreshed one. -/
theorem getYahooSession_refresh_failure (o : Oracle) (now : ℕ)
    (s : PartThree.St) (hboot : o.cookiesR s.boots = .netErr)
    (hcrumb : o.crumbR s.crumbs = .netErr) :
    (PartThree.refreshYahooSession o now s).2 =
      { crumb := none, cookie := none, expiresAt := now + 1800000 } ∧
    (PartThree.getYahooSession o now false s).2 =
      (if strTruthy s.session.crumb = true ∧ now < s.session.expiresAt then
        s.session
      else
        { crumb := none, cookie := none, expiresAt := now + 1800000 }) := by
  have href : (PartThree.refreshYahooSession o now s).2 =
      { crumb := none, cookie := none, expiresAt := now + 1800000 } := by
    simp [PartThree.refreshYahooSession, hboot, hcrumb, PartThree.buildCookieHeader]
  refine ⟨href, ?_⟩
  by_cases hcond : strTruthy s.session.crumb = true ∧ now < s.session.expiresAt
  · rw [if_pos hcond, PartThree.getYahooSession_valid o now s hcond.1 hcond.2]
  · rw [if_neg hcond]
    unfold PartThree.getYahooSession
    rw [if_neg (by simpa using hcond)]
    exact href

/-- Witness for `getYahooSession_refresh_failure` at the stale-session
state with the all-failing oracle. -/
theorem getYahooSession_refresh_failure_witness :
    (oracleDown.cookiesR stStale.boots = .netErr ∧
     oracleDown.crumbR stStale.crumbs = .netErr) ∧
    ((PartThree.refreshYahooSession oracleDown 10 stStale).2 =
      { crumb := none, cookie := none, expiresAt := 10 + 1800000 } ∧
    (PartThree.getYahooSession oracleDown 10 false stStale).2 =
      (if strTruthy stStale.session.crumb = true ∧
          10 < stStale.session.expiresAt then
        stStale.session
      else
        { crumb := none, cookie := none, expiresAt := 10 + 1800000 })) :=
  ⟨⟨rfl, rfl⟩, getYahooSession_refresh_failure oracleDown 10 stStale rfl rfl⟩

/-! ## C3: what a 401 response actually triggers -/

namespace PartThree

/-- First step of a run against an all-401 upstream, from a valid session:
the attempt is recorded, then the explicit `refreshYahooSession` of the
401 branch runs and the call recurses with `attempt = 1`. -/
lemma fetch401_step0 (o : Oracle) (now : ℕ) (s : St) (bf : ℕ → Body)
    (fuel : ℕ) (h1 : strTruthy s.session.crumb = true)
    (h2 : now < s.session.expiresAt)
    (hq : ∀ n, o.quote n = .http 401 (bf n)) :
    fetchYahooQuoteViaHttp o now (fuel + 1) 0 0 s =
      fetchYahooQuoteViaHttp o now fuel 1 0
        ((refreshYahooSession o now
          { s with quotes := s.quotes + 1,
                   trace := s.trace ++ [Ev.attempt 0] }).1) := by
  simp only [fetchYahooQuoteViaHttp]
  rw [show decide (0 < 0) = false from rfl, getYahooSession_valid o now s h1 h2]
  simp only [hq]
  norm_num

/-- Retry step with `attempt = 1` against an all-401 upstream: the forced
`getYahooSession(true)` performs a second refresh, the attempt is recorded,
the 401 branch refreshes yet again and recurses with `attempt = 2`. -/
lemma fetch401_step1 (o : Oracle) (now : ℕ) (s : St) (bf : ℕ → Body)
    (fuel : ℕ) (hq : ∀ n, o.quote n = .http 401 (bf n)) :
    fetchYahooQuoteViaHttp o now (fuel + 1) 1 0 s =
      fetchYahooQuoteViaHttp o now fuel 2 0
        ((refreshYahooSession o now
          { (refreshYahooSession o now s).1 with
              quotes := (refreshYahooSession o now s).1.quotes + 1,
              trace := (refreshYahooSession o now s).1.trace ++ [Ev.attempt 0] }).1) := by
  simp only [fetchYahooQuoteViaHttp]
  rw [show decide (0 < 1) = true from rfl, getYahooSession_force]
  simp only [hq]
  norm_num

/-- Terminal step with `attempt = 2` against an all-401 upstream: the
forced `getYahooSession(true)` refreshes once more, the attempt is
recorded, and the 401 now falls through to the throw branch as an error
carrying status 401. -/
lemma fetch401_step2 (o : Oracle) (now : ℕ) (s : St) (bf : ℕ → Body)
    (fuel : ℕ) (hq : ∀ n, o.quote n = .http 401 (bf n)) :
    fetchYahooQuoteViaHttp o now (fuel + 1) 2 0 s =
      some ({ (refreshYahooSession o now s).1 with
                quotes := (refreshYahooSession o now s).1.quotes + 1,
                trace := (refreshYahooSession o now s).1.trace ++ [Ev.attempt 0] },
            .error (.http 401)) := by
  simp only [fetchYahooQuoteViaHttp]
  rw [show decide (0 < 2) = true from rfl, getYahooSession_force]
  simp only [hq]
  norm_num

end PartThree

/-- Amended C3: a 401 response triggers TWO session refreshes before the
second attempt — the explicit `refreshYahooSession()` of the 401 branch and
the forced refresh performed by `getYahooSession(true)` at the top of the
retried call.  With the retry bound exhausted (three attempts), the call
fails with an error of status 401, which the handler maps to HTTP 400,
never 404. -/
theorem fetch401_double_refresh (o : Oracle) (now : ℕ) (s : PartThree.St)
    (bf : ℕ → Body) (h1 : strTruthy s.session.crumb = true)
    (h2 : now < s.session.expiresAt)
    (hq : ∀ n, o.quote n = .http 401 (bf n)) :
    (PartThree.runFetch o now s).2 = .error (.http 401) ∧
    (PartThree.runFetch o now s).1.trace =
      s.trace ++ [.attempt 0, .refresh, .refresh, .attempt 0, .refresh,
        .refresh, .attempt 0] ∧
    (PartThree.runFetch o now s).1.quotes = s.quotes + 3 ∧
    PartThree.mapQuoteError (.http 401) = HResp.rejected ∧
    (PartThree.mapQuoteError (.http 401)).code = 400 := by
  unfold PartThree.runFetch
  rw [show (5 : ℕ) = 4 + 1 from rfl,
    PartThree.fetch401_step0 o now s bf 4 h1 h2 hq,
    show (4 : ℕ) = 3 + 1 from rfl,
    PartThree.fetch401_step1 o now _ bf 3 hq,
    show (3 : ℕ) = 2 + 1 from rfl,
    PartThree.fetch401_step2 o now _ bf 2 hq]
  refine ⟨rfl, ?_, ?_, by decide, by decide⟩
  · simp [PartThree.refresh_fst, List.append_assoc]
  · simp [PartThree.refresh_fst]

/-- Witness for `fetch401_double_refresh` on the all-401 oracle from a
valid session. -/
theorem fetch401_double_refresh_witness :
    (strTruthy stValid.session.crumb = true ∧ 0 < stValid.session.expiresAt ∧
      (∀ n, (oracleQuote (.http 401 (.parsed none))).quote n =
        .http 401 (.parsed none))) ∧
    ((PartThree.runFetch (oracleQuote (.http 401 (.parsed none))) 0 stValid).2 =
      .error (.http 401) ∧
    (PartThree.runFetch (oracleQuote (.http 401 (.parsed none))) 0 stValid).1.trace =
      stValid.trace ++ [.attempt 0, .refresh, .refresh, .attempt 0, .refresh,
        .refresh, .attempt 0] ∧
    (PartThree.runFetch (oracleQuote (.http 401 (.parsed none))) 0 stValid).1.quotes =
      stValid.quotes + 3 ∧
    PartThree.mapQuoteError (.http 401) = HResp.rejected ∧
    (PartThree.mapQuoteError (.http 401)).code = 400) :=
  ⟨⟨rfl, by decide, fun _ => rfl⟩,
    fetch401_double_refresh (oracleQuote (.http 401 (.parsed none))) 0 stValid
      (fun _ => .parsed none) rfl (by decide) (fun _ => rfl)⟩

/-- Counterexample to claim C3 as stated: on an all-401 upstream the trace
shows two refreshes (not exactly one) between the first and the second
attempt. -/
theorem fetch401_counterexample :
    refreshesBetween
      (PartThree.runFetch (oracleQuote (.http 401 (.parsed none))) 0 stValid).1.trace = 2 ∧
    ¬ (refreshesBetween
      (PartThree.runFetch (oracleQuote (.http 401 (.parsed none))) 0 stValid).1.trace = 1) := by
  refine ⟨?_, ?_⟩ <;> decide

/-! ## C4: 404 handling -/

namespace PartThree

/-- part_003 on an upstream 404 from a valid session: no retry and no
failover, but not `null` either — the orchestrator throws an error carrying
status 404. -/
lemma fetch404_step (o : Oracle) (now : ℕ) (s : St) (b : Body) (fuel : ℕ)
    (h1 : strTruthy s.session.crumb = true) (h2 : now < s.session.expiresAt)
    (hq : o.quote s.quotes = .http 404 b) :
    fetchYahooQuoteViaHttp o now (fuel + 1) 0 0 s =
      some ({ s with quotes := s.quotes + 1, trace := s.trace ++ [Ev.attempt 0] },
        .error (.http 404)) := by
  simp only [fetchYahooQuoteViaHttp]
  rw [show decide (0 < 0) = false from rfl, getYahooSession_valid o now s h1 h2]
  simp only [hq]
  norm_num

lemma fetch404_run (o : Oracle) (now : ℕ) (s : St) (b : Body)
    (h1 : strTruthy s.session.crumb = true) (h2 : now < s.session.expiresAt)
    (hq : o.quote s.quotes = .http 404 b) :
    runFetch o now s =
      ({ s with quotes := s.quotes + 1, trace := s.trace ++ [Ev.attempt 0] },
        .error (.http 404)) := by
  unfold runFetch
  rw [show (5 : ℕ) = 4 + 1 from rfl, fetch404_step o now s b 4 h1 h2 hq]
  rfl

end PartThree

namespace IndexJs

/-- `yahooFetchOnce` from a valid session issues exactly one quote request
and no refresh. -/
lemma yahooFetchOnce_valid (o : Oracle) (now : ℕ) (s : St)
    (h1 : strTruthy s.session.cookie = true) (h2 : now < s.session.expiresAt) :
    yahooFetchOnce o now s = ({ s with quotes := s.quotes + 1 }, o.quote s.quotes) := by
  unfold yahooFetchOnce
  have hc : (!(strTruthy s.session.cookie) || decide (s.session.expiresAt ≤ now)) = false := by
    rw [h1]
    simp
    omega
  rw [hc]
  simp

/-- index.js on an upstream 404 from a valid session: `fetchYahooQuote`
returns `null` after a single request — no retry, no failover to the second
host. -/
lemma fetch404_loop (o : Oracle) (now : ℕ) (symbol : String) (s : St)
    (b : Body) (h1 : strTruthy s.session.cookie = true)
    (h2 : now < s.session.expiresAt) (hq : o.quote s.quotes = .http 404 b) :
    fetchYahooQuote o now symbol s = ({ s with quotes := s.quotes + 1 }, .ok none) := by
  unfold fetchYahooQuote tryHost yahooFetch
  rw [yahooFetchOnce_valid o now s h1 h2]
  simp only [hq]
  norm_num

end IndexJs

/-- Amended C4: on an upstream HTTP 404 neither orchestrator retries or
fails over, and both surface HTTP 404 — but only index.js's
`fetchYahooQuote` returns `null` (mapped to 404 by its handler's `!quote`
check); part_003's `fetchYahooQuoteViaHttp` instead throws an error with
status 404, which its handler's catch block maps to HTTP 404. -/
theorem fetch404_behavior (o : Oracle) (now : ℕ) (sP : PartThree.St)
    (sB : IndexJs.St) (symQ : String) (cP : Cache PartThree.Scored)
    (cB : Cache IndexJs.Scored) (b bB : Body)
    (hsym : ¬ symQ = (""))
    (hsymB : ¬ jsTrim symQ = (""))
    (h1 : strTruthy sP.session.crumb = true)
    (h2 : now < sP.session.expiresAt)
    (hq : o.quote sP.quotes = .http 404 b)
    (h1B : strTruthy sB.session.cookie = true)
    (h2B : now < sB.session.expiresAt)
    (hqB : o.quote sB.quotes = .http 404 bB)
    (hmiss : cP.hasKey (("quote:") ++ jsToUpper symQ) now = false)
    (hmissB : cB.hasKey (("quote:") ++ jsToUpper (jsTrim symQ)) now = false) :
    PartThree.runFetch o now sP =
      ({ sP with quotes := sP.quotes + 1, trace := sP.trace ++ [.attempt 0] },
        .error (.http 404)) ∧
    PartThree.quoteHandler o now (some symQ) ⟨cP, sP⟩ =
      (⟨cP, { sP with quotes := sP.quotes + 1,
                      trace := sP.trace ++ [.attempt 0] }⟩, .notFound) ∧
    IndexJs.fetchYahooQuote o now (jsTrim symQ) sB =
      ({ sB with quotes := sB.quotes + 1 }, .ok none) ∧
    IndexJs.quoteHandler o now (some symQ) ⟨cB, sB⟩ =
      (⟨cB, { sB with quotes := sB.quotes + 1 }⟩, .notFound) ∧
    (HResp.notFound : HResp PartThree.Scored).code = 404 := by
  have hfP := PartThree.fetch404_run o now sP b h1 h2 hq
  have hfB := IndexJs.fetch404_loop o now (jsTrim symQ) sB bB h1B h2B hqB
  refine ⟨hfP, ?_, hfB, ?_, rfl⟩
  · unfold PartThree.quoteHandler
    simp only [if_neg hsym, hmiss, Bool.false_eq_true, if_false, hfP,
      PartThree.mapQuoteError]
    norm_num
  · unfold IndexJs.quoteHandler
    simp only [Option.getD]
    simp only [if_neg hsymB, hmissB, Bool.false_eq_true, if_false, hfB]

/-- Witness for `fetch404_behavior` on the all-404 oracle. -/
theorem fetch404_behavior_witness :
    (¬ ("aapl" : String) = ("") ∧ ¬ jsTrim ("aapl") = ("") ∧
     strTruthy stValid.session.crumb = true ∧ 0 < stValid.session.expiresAt ∧
     oracle404.quote stValid.quotes = .http 404 (.parsed none) ∧
     strTruthy stValidB.session.cookie = true ∧ 0 < stValidB.session.expiresAt ∧
     oracle404.quote stValidB.quotes = .http 404 (.parsed none) ∧
     emptyCacheP.hasKey (("quote:") ++ jsToUpper ("aapl")) 0 = false ∧
     emptyCacheB.hasKey (("quote:") ++ jsToUpper (jsTrim ("aapl"))) 0 = false) ∧
    (PartThree.runFetch oracle404 0 stValid =
      ({ stValid with quotes := stValid.quotes + 1,
                      trace := stValid.trace ++ [.attempt 0] },
        .error (.http 404)) ∧
    PartThree.quoteHandler oracle404 0 (some ("aapl")) ⟨emptyCacheP, stValid⟩ =
      (⟨emptyCacheP, st404P⟩, .notFound) ∧
    IndexJs.fetchYahooQuote oracle404 0 (jsTrim ("aapl")) stValidB =
      ({ stValidB with quotes := stValidB.quotes + 1 }, .ok none) ∧
    IndexJs.quoteHandler oracle404 0 (some ("aapl")) ⟨emptyCacheB, stValidB⟩ =
      (⟨emptyCacheB, st404B⟩, .notFound) ∧
    (HResp.notFound : HResp PartThree.Scored).code = 404) :=
  ⟨⟨by decide, by decide, rfl, by decide, rfl, rfl, by decide, rfl, rfl, rfl⟩,
    fetch404_behavior oracle404 0 stValid stValidB ("aapl") emptyCacheP emptyCacheB
      (.parsed none) (.parsed none) (by decide) (by decide) rfl (by decide) rfl rfl
      (by decide) rfl rfl rfl⟩

/-- Counterexample to claim C4 as stated: part_003's orchestrator does not
return `null` on a 404 — it produces an error (carrying status 404). -/
theorem fetch404_counterexample :
    (PartThree.runFetch oracle404 0 stValid).2 = .error (.http 404) ∧
    ¬ ((PartThree.runFetch oracle404 0 stValid).2 = .ok none) := by
  refine ⟨?_, ?_⟩ <;> decide

/-! ## C5 / C6: 429 and 5xx handling -/

namespace PartThree

/-- Terminal step: a response whose status neither triggers the 401/403
retry, nor the 5xx failover (no host remains), nor is 2xx, is thrown
immediately as an error carrying that status — no wait, no retry. -/
lemma fetch_throw_step (o : Oracle) (now : ℕ) (s : St) (st : ℕ) (b : Body)
    (fuel hostIndex : ℕ)
    (h1 : strTruthy s.session.crumb = true) (h2 : now < s.session.expiresAt)
    (hq : o.quote s.quotes = .http st b)
    (hst1 : ¬ (st = 401 ∨ st = 403))
    (hst2 : ¬ (500 ≤ st ∧ hostIndex + 1 < 2))
    (hst3 : ¬ (200 ≤ st ∧ st < 300)) :
    fetchYahooQuoteViaHttp o now (fuel + 1) 0 hostIndex s =
      some ({ s with quotes := s.quotes + 1,
                     trace := s.trace ++
                       [Ev.attempt (if hostIndex < 2 then hostIndex else 0)] },
            .error (.http st)) := by
  simp only [fetchYahooQuoteViaHttp]
  rw [show decide (0 < 0) = false from rfl, getYahooSession_valid o now s h1 h2]
  simp only [hq]
  rw [if_neg (fun hc => hst1 hc.1), if_neg hst2, if_pos hst3]

/-- Failover step: a 5xx response with the second host still untried moves
to `hostIndex + 1 = 1` with the attempt counter unchanged. -/
lemma fetch_failover_step (o : Oracle) (now : ℕ) (s : St) (st : ℕ) (b : Body)
    (fuel : ℕ)
    (h1 : strTruthy s.session.crumb = true) (h2 : now < s.session.expiresAt)
    (hq : o.quote s.quotes = .http st b) (hst : 500 ≤ st) :
    fetchYahooQuoteViaHttp o now (fuel + 1) 0 0 s =
      fetchYahooQuoteViaHttp o now fuel 0 1
        ({ s with quotes := s.quotes + 1, trace := s.trace ++ [Ev.attempt 0] }) := by
  simp only [fetchYahooQuoteViaHttp]
  rw [show decide (0 < 0) = false from rfl, getYahooSession_valid o now s h1 h2]
  simp only [hq]
  rw [if_neg (fun hc => by omega), if_pos (show 500 ≤ st ∧ 0 + 1 < 2 by omega)]
  norm_num

end PartThree

namespace IndexJs

/-- One host iteration on a response whose status is not 404, not 401/403
and not 2xx: the error (with that status) is recorded after exactly one
request — no retry of the same host, no wait. -/
lemma tryHost_throw (o : Oracle) (now : ℕ) (symbol : String) (s : St)
    (st : ℕ) (b : Body)
    (h1 : strTruthy s.session.cookie = true) (h2 : now < s.session.expiresAt)
    (hq : o.quote s.quotes = .http st b)
    (hst404 : ¬ st = 404)
    (hst401 : ¬ (st = 401 ∨ st = 403))
    (hstok : ¬ (200 ≤ st ∧ st < 300)) :
    tryHost o now symbol s = ({ s with quotes := s.quotes + 1 }, .error (.httpE st)) := by
  unfold tryHost yahooFetch
  rw [yahooFetchOnce_valid o now s h1 h2]
  simp only [hq]
  rw [if_neg hst401]
  simp only []
  rw [if_neg hst404, if_pos hstok]

/-- The full host loop when both hosts answer with such statuses: two
requests total (one per host, the failover), then the last error is thrown
with its status. -/
lemma fetch_loop_throw (o : Oracle) (now : ℕ) (symbol : String) (s : St)
    (st1 st2 : ℕ) (b0 b1 : Body)
    (h1 : strTruthy s.session.cookie = true) (h2 : now < s.session.expiresAt)
    (hq0 : o.quote s.quotes = .http st1 b0)
    (hq1 : o.quote (s.quotes + 1) = .http st2 b1)
    (hc1 : ¬ st1 = 404) (hc2 : ¬ (st1 = 401 ∨ st1 = 403))
    (hc3 : ¬ (200 ≤ st1 ∧ st1 < 300))
    (hd1 : ¬ st2 = 404) (hd2 : ¬ (st2 = 401 ∨ st2 = 403))
    (hd3 : ¬ (200 ≤ st2 ∧ st2 < 300)) :
    fetchYahooQuote o now symbol s =
      ({ s with quotes := s.quotes + 1 + 1 }, .error st2) := by
  unfold fetchYahooQuote
  rw [tryHost_throw o now symbol s st1 b0 h1 h2 hq0 hc1 hc2 hc3]
  simp only []
  rw [tryHost_throw o now symbol { s with quotes := s.quotes + 1 } st2 b1 h1 h2
    hq1 hd1 hd2 hd3]
  simp [BErr.statusOf]

end IndexJs

/-- Amended C5: neither backend waits or retries the same host on a 429.
part_003 throws a status-429 error immediately after the single attempt
(surfaced as HTTP 400 by its handler); index.js records the 429, fails over
once to the second host and then throws with status 429 (surfaced as HTTP
400).  No delay mechanism exists in either. -/
theorem fetch429_no_retry (o : Oracle) (now : ℕ) (sP : PartThree.St)
    (sB : IndexJs.St) (symbol : String) (b b0 b1 : Body)
    (h1 : strTruthy sP.session.crumb = true)
    (h2 : now < sP.session.expiresAt)
    (hq : o.quote sP.quotes = .http 429 b)
    (h1B : strTruthy sB.session.cookie = true)
    (h2B : now < sB.session.expiresAt)
    (hqB0 : o.quote sB.quotes = .http 429 b0)
    (hqB1 : o.quote (sB.quotes + 1) = .http 429 b1) :
    PartThree.runFetch o now sP =
      ({ sP with quotes := sP.quotes + 1, trace := sP.trace ++ [.attempt 0] },
        .error (.http 429)) ∧
    IndexJs.fetchYahooQuote o now symbol sB =
      ({ sB with quotes := sB.quotes + 1 + 1 }, .error 429) ∧
    PartThree.mapQuoteError (.http 429) = HResp.rejected ∧
    IndexJs.mapStatus 429 = HResp.rejected ∧
    (HResp.rejected : HResp PartThree.Scored).code = 400 := by
  refine ⟨?_, ?_, by decide, by decide, rfl⟩
  · unfold PartThree.runFetch
    rw [show (5 : ℕ) = 4 + 1 from rfl,
      PartThree.fetch_throw_step o now sP 429 b 4 0 h1 h2 hq (by omega) (by omega)
        (by omega)]
    norm_num
  · exact IndexJs.fetch_loop_throw o now symbol sB 429 429 b0 b1 h1B h2B hqB0 hqB1
      (by omega) (by omega) (by omega) (by omega) (by omega) (by omega)

/-- Witness for `fetch429_no_retry` on the all-429 oracle. -/
theorem fetch429_no_retry_witness :
    (strTruthy stValid.session.crumb = true ∧ 0 < stValid.session.expiresAt ∧
     (oracleQuote (.http 429 (.parsed none))).quote stValid.quotes =
       .http 429 (.parsed none) ∧
     strTruthy stValidB.session.cookie = true ∧ 0 < stValidB.session.expiresAt ∧
     (oracleQuote (.http 429 (.parsed none))).quote stValidB.quotes =
       .http 429 (.parsed none) ∧
     (oracleQuote (.http 429 (.parsed none))).quote (stValidB.quotes + 1) =
       .http 429 (.parsed none)) ∧
    (PartThree.runFetch (oracleQuote (.http 429 (.parsed none))) 0 stValid =
      ({ stValid with quotes := stValid.quotes + 1,
                      trace := stValid.trace ++ [.attempt 0] },
        .error (.http 429)) ∧
    IndexJs.fetchYahooQuote (oracleQuote (.http 429 (.parsed none))) 0 ("X") stValidB =
      ({ stValidB with quotes := stValidB.quotes + 1 + 1 }, .error 429) ∧
    PartThree.mapQuoteError (.http 429) = HResp.rejected ∧
    IndexJs.mapStatus 429 = HResp.rejected ∧
    (HResp.rejected : HResp PartThree.Scored).code = 400) :=
  ⟨⟨rfl, by decide, rfl, rfl, by decide, rfl, rfl⟩,
    fetch429_no_retry (oracleQuote (.http 429 (.parsed none))) 0 stValid stValidB
      ("X") (.parsed none) (.parsed none) (.parsed none) rfl (by decide) rfl rfl
      (by decide) rfl rfl⟩

/-- Counterexample to claim C5 as stated: on a 429 part_003 performs
exactly one attempt — there is no second attempt against the same host, so
no "retry up to 3 attempts" (and no delay: the code has no timer at all). -/
theorem fetch429_counterexample :
    (PartThree.runFetch (oracleQuote (.http 429 (.parsed none))) 0 stValid).1.trace =
      [.attempt 0] ∧
    ¬ (2 ≤ ((PartThree.runFetch (oracleQuote (.http 429 (.parsed none))) 0
        stValid).1.trace.filter fun e => e.isAttempt).length) ∧
    (PartThree.runFetch (oracleQuote (.http 429 (.parsed none))) 0 stValid).2 =
      .error (.http 429) := by
  refine ⟨?_, ?_, ?_⟩ <;> decide

/-- Amended C6: a 5xx with the second host untried fails over to it (the
attempt counter unchanged); once hosts are exhausted the error is thrown
immediately with the last 5xx status — there is no backoff and no further
retry (the same immediate-throw path a 429 takes, but with no extra
attempts of any kind).  Both handlers surface it as HTTP 502. -/
theorem fetch5xx_failover (o : Oracle) (now : ℕ) (sP : PartThree.St)
    (sB : IndexJs.St) (symbol : String) (st1 st2 stB1 stB2 : ℕ)
    (b0 b1 bB0 bB1 : Body)
    (h1 : strTruthy sP.session.crumb = true)
    (h2 : now < sP.session.expiresAt)
    (hq0 : o.quote sP.quotes = .http st1 b0) (h5a : 500 ≤ st1)
    (hq1 : o.quote (sP.quotes + 1) = .http st2 b1) (h5b : 500 ≤ st2)
    (h1B : strTruthy sB.session.cookie = true)
    (h2B : now < sB.session.expiresAt)
    (hqB0 : o.quote sB.quotes = .http stB1 bB0) (h5c : 500 ≤ stB1)
    (hqB1 : o.quote (sB.quotes + 1) = .http stB2 bB1) (h5d : 500 ≤ stB2) :
    PartThree.runFetch o now sP =
      ({ sP with quotes := sP.quotes + 1 + 1,
                 trace := sP.trace ++ [.attempt 0, .attempt 1] },
        .error (.http st2)) ∧
    IndexJs.fetchYahooQuote o now symbol sB =
      ({ sB with quotes := sB.quotes + 1 + 1 }, .error stB2) ∧
    PartThree.mapQuoteError (.http st2) = HResp.upstreamFail ∧
    IndexJs.mapStatus stB2 = HResp.upstreamFail ∧
    (HResp.upstreamFail : HResp PartThree.Scored).code = 502 := by
  refine ⟨?_, ?_, ?_, ?_, rfl⟩
  · unfold PartThree.runFetch
    rw [show (5 : ℕ) = 4 + 1 from rfl,
      PartThree.fetch_failover_step o now sP st1 b0 4 h1 h2 hq0 h5a,
      show (4 : ℕ) = 3 + 1 from rfl,
      PartThree.fetch_throw_step o now
        ({ sP with quotes := sP.quotes + 1, trace := sP.trace ++ [.attempt 0] })
        st2 b1 3 1 h1 h2 hq1 (by omega) (by omega) (by omega)]
    simp [List.append_assoc]
  · exact IndexJs.fetch_loop_throw o now symbol sB stB1 stB2 bB0 bB1 h1B h2B
      hqB0 hqB1 (by omega) (by omega) (by omega) (by omega) (by omega) (by omega)
  · unfold PartThree.mapQuoteError
    simp only []
    rw [if_neg (by omega), if_neg (by omega)]
  · unfold IndexJs.mapStatus
    rw [if_neg (by omega), if_neg (by omega)]

/-- Witness for `fetch5xx_failover` on the all-503 oracle. -/
theorem fetch5xx_failover_witness :
    (strTruthy stValid.session.crumb = true ∧ 0 < stValid.session.expiresAt ∧
     (oracleQuote (.http 503 (.parsed none))).quote stValid.quotes =
       .http 503 (.parsed none) ∧ (500 : ℕ) ≤ 503 ∧
     (oracleQuote (.http 503 (.parsed none))).quote (stValid.quotes + 1) =
       .http 503 (.parsed none) ∧
     strTruthy stValidB.session.cookie = true ∧ 0 < stValidB.session.expiresAt ∧
     (oracleQuote (.http 503 (.parsed none))).quote stValidB.quotes =
       .http 503 (.parsed none) ∧
     (oracleQuote (.http 503 (.parsed none))).quote (stValidB.quotes + 1) =
       .http 503 (.parsed none)) ∧
    (PartThree.runFetch (oracleQuote (.http 503 (.parsed none))) 0 stValid =
      ({ stValid with quotes := stValid.quotes + 1 + 1,
                      trace := stValid.trace ++ [.attempt 0, .attempt 1] },
        .error (.http 503)) ∧
    IndexJs.fetchYahooQuote (oracleQuote (.http 503 (.parsed none))) 0 ("X") stValidB =
      ({ stValidB with quotes := stValidB.quotes + 1 + 1 }, .error 503) ∧
    PartThree.mapQuoteError (.http 503) = HResp.upstreamFail ∧
    IndexJs.mapStatus 503 = HResp.upstreamFail ∧
    (HResp.upstreamFail : HResp PartThree.Scored).code = 502) :=
  ⟨⟨rfl, by decide, rfl, by decide, rfl, rfl, by decide, rfl, rfl⟩,
    fetch5xx_failover (oracleQuote (.http 503 (.parsed none))) 0 stValid stValidB
      ("X") 503 503 503 503 (.parsed none) (.parsed none) (.parsed none)
      (.parsed none) rfl (by decide) rfl (by decide) rfl (by decide) rfl
      (by decide) rfl (by decide) rfl (by decide)⟩

/-- Counterexample to claim C6 as stated: after both hosts return 503 the
run ends at two attempts — no backoff-and-retry round happens before
giving up. -/
theorem fetch5xx_counterexample :
    (PartThree.runFetch (oracleQuote (.http 503 (.parsed none))) 0 stValid).1.trace =
      [.attempt 0, .attempt 1] ∧
    ¬ (3 ≤ ((PartThree.runFetch (oracleQuote (.http 503 (.parsed none))) 0
        stValid).1.trace.filter fun e => e.isAttempt).length) ∧
    (PartThree.runFetch (oracleQuote (.http 503 (.parsed none))) 0 stValid).2 =
      .error (.http 503) := by
  refine ⟨?_, ?_, ?_⟩ <;> decide

/-! ## C9: normalization of the upstream payload -/

namespace PartThree

/-- part_003 on a 2xx response with an extractable result: the raw fields
pass through into the quote record with no numeric validation at all. -/
lemma fetch200_step (o : Oracle) (now : ℕ) (s : St) (st : ℕ) (r : RawResult)
    (fuel : ℕ)
    (h1 : strTruthy s.session.crumb = true) (h2 : now < s.session.expiresAt)
    (hq : o.quote s.quotes = .http st (.parsed (some r)))
    (hok : 200 ≤ st ∧ st < 300) :
    fetchYahooQuoteViaHttp o now (fuel + 1) 0 0 s =
      some ({ s with quotes := s.quotes + 1, trace := s.trace ++ [Ev.attempt 0] },
        .ok (some { symbol := r.symbol, price := r.regularMarketPrice,
                    pe := r.trailingPE, forwardPE := r.forwardPE })) := by
  simp only [fetchYahooQuoteViaHttp]
  rw [show decide (0 < 0) = false from rfl, getYahooSession_valid o now s h1 h2]
  simp only [hq]
  rw [if_neg (by omega), if_neg (by omega), if_neg (not_not_intro hok)]
  norm_num

end PartThree

namespace IndexJs

/-- One index.js host iteration on a 2xx response with an extractable
result: the price must be numeric or the iteration fails with the
`Invalid price data` error; non-numeric ratios are nulled. -/
lemma tryHost_normalize (o : Oracle) (now : ℕ) (symbol : String) (s : St)
    (st : ℕ) (r : RawResult)
    (h1 : strTruthy s.session.cookie = true) (h2 : now < s.session.expiresAt)
    (hq : o.quote s.quotes = .http st (.parsed (some r)))
    (hok : 200 ≤ st ∧ st < 300) :
    tryHost o now symbol s =
      ({ s with quotes := s.quotes + 1 },
        match normalizeResult symbol r with
        | .error e => .error e
        | .ok q => .ok (some q)) := by
  unfold tryHost yahooFetch
  rw [yahooFetchOnce_valid o now s h1 h2]
  simp only [hq]
  rw [if_neg (by omega)]
  simp only []
  rw [if_neg (by omega), if_neg (not_not_intro hok)]
  rcases hn : normalizeResult symbol r with e | q <;> rfl

end IndexJs

/-- Amended C9: index.js's normalization behaves as the claim states —
`fetchYahooQuote`'s host iteration fails (`Invalid price data`) whenever
the price field is not a number, and present-but-non-numeric P/E fields
become `null` —, but part_003 performs no numeric validation: its
orchestrator passes price, trailing P/E and forward P/E through unchanged,
yielding a quote record even when the price is not a number. -/
theorem normalize_price_mandatory (o : Oracle) (now : ℕ)
    (sP : PartThree.St) (sB : IndexJs.St) (symbol : String)
    (stP stB : ℕ) (rP rB : RawResult)
    (h1 : strTruthy sP.session.crumb = true)
    (h2 : now < sP.session.expiresAt)
    (hqP : o.quote sP.quotes = .http stP (.parsed (some rP)))
    (hokP : 200 ≤ stP ∧ stP < 300)
    (h1B : strTruthy sB.session.cookie = true)
    (h2B : now < sB.session.expiresAt)
    (hqB : o.quote sB.quotes = .http stB (.parsed (some rB)))
    (hokB : 200 ≤ stB ∧ stB < 300) :
    (rB.regularMarketPrice = .nonNum →
      IndexJs.tryHost o now symbol sB =
        ({ sB with quotes := sB.quotes + 1 }, .error .invalidPrice)) ∧
    (∀ p, rB.regularMarketPrice = .num p →
      IndexJs.tryHost o now symbol sB =
        ({ sB with quotes := sB.quotes + 1 },
          .ok (some { symbol := jsToUpper (match rB.symbol with
                        | some t => if t = ("") then symbol else t
                        | none => symbol),
                      price := p, pe := rB.trailingPE.toOpt,
                      forwardPE := rB.forwardPE.toOpt }))) ∧
    PartThree.runFetch o now sP =
      ({ sP with quotes := sP.quotes + 1, trace := sP.trace ++ [.attempt 0] },
        .ok (some { symbol := rP.symbol, price := rP.regularMarketPrice,
                    pe := rP.trailingPE, forwardPE := rP.forwardPE })) := by
  have ht := IndexJs.tryHost_normalize o now symbol sB stB rB h1B h2B hqB hokB
  refine ⟨?_, ?_, ?_⟩
  · intro hn
    rw [ht]
    unfold IndexJs.normalizeResult
    rw [hn]
  · intro p hp
    rw [ht]
    unfold IndexJs.normalizeResult
    rw [hp]
    simp only []
    rcases rB.trailingPE with q | _ <;> rcases rB.forwardPE with q2 | _ <;>
      simp [JsVal.toOpt]
  · unfold PartThree.runFetch
    rw [show (5 : ℕ) = 4 + 1 from rfl,
      PartThree.fetch200_step o now sP stP rP 4 h1 h2 hqP hokP]
    rfl

/-- Witness for `normalize_price_mandatory` on a 200 response carrying
`rawBadPrice`. -/
theorem normalize_price_mandatory_witness :
    (strTruthy stValid.session.crumb = true ∧ 0 < stValid.session.expiresAt ∧
     (oracleQuote (.http 200 (.parsed (some rawBadPrice)))).quote stValid.quotes =
       .http 200 (.parsed (some rawBadPrice)) ∧
     ((200 : ℕ) ≤ 200 ∧ (200 : ℕ) < 300) ∧
     strTruthy stValidB.session.cookie = true ∧ 0 < stValidB.session.expiresAt ∧
     (oracleQuote (.http 200 (.parsed (some rawBadPrice)))).quote stValidB.quotes =
       .http 200 (.parsed (some rawBadPrice))) ∧
    ((rawBadPrice.regularMarketPrice = .nonNum →
      IndexJs.tryHost (oracleQuote (.http 200 (.parsed (some rawBadPrice)))) 0
          ("aapl") stValidB =
        ({ stValidB with quotes := stValidB.quotes + 1 }, .error .invalidPrice)) ∧
    (∀ p, rawBadPrice.regularMarketPrice = .num p →
      IndexJs.tryHost (oracleQuote (.http 200 (.parsed (some rawBadPrice)))) 0
          ("aapl") stValidB =
        ({ stValidB with quotes := stValidB.quotes + 1 },
          .ok (some { symbol := jsToUpper (match rawBadPrice.symbol with
                        | some t => if t = ("") then ("aapl") else t
                        | none => ("aapl")),
                      price := p, pe := rawBadPrice.trailingPE.toOpt,
                      forwardPE := rawBadPrice.forwardPE.toOpt }))) ∧
    PartThree.runFetch (oracleQuote (.http 200 (.parsed (some rawBadPrice)))) 0
        stValid =
      ({ stValid with quotes := stValid.quotes + 1,
                      trace := stValid.trace ++ [.attempt 0] },
        .ok (some { symbol := rawBadPrice.symbol,
                    price := rawBadPrice.regularMarketPrice,
                    pe := rawBadPrice.trailingPE,
                    forwardPE := rawBadPrice.forwardPE }))) :=
  ⟨⟨rfl, by decide, rfl, by decide, rfl, by decide, rfl⟩,
    normalize_price_mandatory (oracleQuote (.http 200 (.parsed (some rawBadPrice))))
      0 stValid stValidB ("aapl") 200 200 rawBadPrice rawBadPrice rfl (by decide)
      rfl (by decide) rfl (by decide) rfl (by decide)⟩

/-- Counterexample to claim C9 as stated: part_003 "normalizes" a payload
whose price is not a number into a successful quote record instead of
failing. -/
theorem normalize_counterexample :
    (PartThree.runFetch (oracleQuote (.http 200 (.parsed (some rawBadPrice)))) 0
        stValid).2 =
      .ok (some { symbol := some ("AAPL"), price := JsVal.nonNum,
                  pe := .num 25, forwardPE := .num 20 }) ∧
    JsVal.isNum JsVal.nonNum = false := by
  refine ⟨?_, rfl⟩
  decide

/-! ## C7 / C8: cache behaviour of the quote handlers -/

lemma find_filter_ne {α : Type} (l : List (CacheEntry α)) (k k' : String)
    (hne : ¬ k' = k) :
    (l.filter fun x => !(x.key == k)).find? (fun e => e.key == k') =
      l.find? (fun e => e.key == k') := by
  induction l with
  | nil => rfl
  | cons a l ih =>
      by_cases ha : a.key = k
      · have h1 : (a.key == k) = true := by simp [ha]
        have h2 : (a.key == k') = false := by
          simp only [beq_eq_false_iff_ne, ne_eq, ha]
          exact fun hh => hne hh.symm
        simp [List.filter_cons, h1, List.find?_cons, h2, ih]
      · have h1 : (a.key == k) = false := by simp [ha]
        by_cases hk' : a.key = k'
        · have h2 : (a.key == k') = true := by simp [hk']
          simp [List.filter_cons, h1, List.find?_cons, h2]
        · have h2 : (a.key == k') = false := by simp [hk']
          simp [List.filter_cons, h1, List.find?_cons, h2, ih]

lemma Cache.hasKey_of_find {α : Type} (c : Cache α) (k : String) (now : ℕ)
    (e : CacheEntry α) (hf : c.entries.find? (fun x => x.key == k) = some e)
    (hexp : now < e.expiresAt) : c.hasKey k now = true := by
  have hmem : e ∈ c.entries := List.mem_of_find?_eq_some hf
  have hp := List.find?_some hf
  unfold Cache.hasKey
  rw [List.any_eq_true]
  exact ⟨e, hmem, by simp [hp, hexp]⟩

lemma Cache.get_hit {α : Type} (c : Cache α) (k : String) (now : ℕ)
    (e : CacheEntry α) (hf : c.entries.find? (fun x => x.key == k) = some e)
    (hexp : now < e.expiresAt) :
    c.get k now = (some e.val, ⟨e :: c.entries.filter fun x => !(x.key == k)⟩) := by
  unfold Cache.get
  rw [hf]
  simp only []
  rw [if_pos hexp]

/-- Moving the hit entry to the front changes no lookup: first matches per
key are preserved exactly. -/
lemma Cache.get_hit_frame {α : Type} (c : Cache α) (k : String)
    (e : CacheEntry α) (hf : c.entries.find? (fun x => x.key == k) = some e) :
    ∀ k', ((e :: c.entries.filter fun x => !(x.key == k)).find?
        fun x => x.key == k') = c.entries.find? (fun x => x.key == k') := by
  intro k'
  have hek : e.key = k := by
    have hp := List.find?_some hf
    simpa [beq_iff_eq] using hp
  by_cases hkk : k' = k
  · subst hkk
    rw [List.find?_cons_of_pos _ (by simp [hek]), hf]
  · rw [List.find?_cons_of_neg _ (by simp [hek]; exact fun hh => hkk hh.symm)]
    exact find_filter_ne c.entries k k' hkk

lemma Cache.set_find {α : Type} (c : Cache α) (k : String) (v : α) (now : ℕ) :
    (c.set k v now).entries.find? (fun x => x.key == k) =
      some ⟨k, v, now + 300000⟩ := by
  unfold Cache.set
  rw [show (100 : ℕ) = 99 + 1 from rfl, List.take_succ_cons]
  exact List.find?_cons_of_pos _ (by simp)

namespace PartThree

lemma p3_handler_hit (o : Oracle) (now : ℕ) (sym : String)
    (c : Cache Scored) (fs : St) (e : CacheEntry Scored)
    (hsym : ¬ sym = (""))
    (hf : c.entries.find? (fun x => x.key == ("quote:") ++ jsToUpper sym) = some e)
    (hexp : now < e.expiresAt) :
    quoteHandler o now (some sym) ⟨c, fs⟩ =
      (⟨⟨e :: c.entries.filter fun x => !(x.key == ("quote:") ++ jsToUpper sym)⟩,
        fs⟩, .ok e.val) := by
  unfold quoteHandler
  simp only []
  rw [if_neg hsym,
    Cache.hasKey_of_find c (("quote:") ++ jsToUpper sym) now e hf hexp,
    if_pos rfl, Cache.get_hit c (("quote:") ++ jsToUpper sym) now e hf hexp]

end PartThree

namespace IndexJs

lemma ixjs_handler_hit (o : Oracle) (now : ℕ) (sym : String)
    (c : Cache Scored) (fs : St) (e : CacheEntry Scored)
    (hsym : ¬ jsTrim sym = (""))
    (hf : c.entries.find?
      (fun x => x.key == ("quote:") ++ jsToUpper (jsTrim sym)) = some e)
    (hexp : now < e.expiresAt) :
    quoteHandler o now (some sym) ⟨c, fs⟩ =
      (⟨⟨e :: c.entries.filter
          fun x => !(x.key == ("quote:") ++ jsToUpper (jsTrim sym))⟩,
        fs⟩, .ok e.val) := by
  unfold quoteHandler
  simp only [Option.getD]
  rw [if_neg hsym,
    Cache.hasKey_of_find c (("quote:") ++ jsToUpper (jsTrim sym)) now e hf hexp,
    if_pos rfl,
    Cache.get_hit c (("quote:") ++ jsToUpper (jsTrim sym)) now e hf hexp]

end IndexJs

/-- Claim C7: on a cache hit (an unexpired entry under
`"quote:" + uppercased symbol`) both handlers return exactly the cached
value, touch none of the fetch-side state (no upstream request, no session
change), and change the cache only by moving the hit entry to the front:
every key still resolves to the same entry. -/
theorem cache_hit_no_upstream (o : Oracle) (now : ℕ) (sym : String)
    (cP : Cache PartThree.Scored) (cB : Cache IndexJs.Scored)
    (fsP : PartThree.St) (fsB : IndexJs.St)
    (eP : CacheEntry PartThree.Scored) (eB : CacheEntry IndexJs.Scored)
    (hsym : ¬ sym = ("")) (hsymB : ¬ jsTrim sym = (""))
    (hfP : cP.entries.find?
      (fun x => x.key == ("quote:") ++ jsToUpper sym) = some eP)
    (hexpP : now < eP.expiresAt)
    (hfB : cB.entries.find?
      (fun x => x.key == ("quote:") ++ jsToUpper (jsTrim sym)) = some eB)
    (hexpB : now < eB.expiresAt) :
    PartThree.quoteHandler o now (some sym) ⟨cP, fsP⟩ =
      (⟨⟨eP :: cP.entries.filter
          fun x => !(x.key == ("quote:") ++ jsToUpper sym)⟩, fsP⟩, .ok eP.val) ∧
    (∀ k', ((PartThree.quoteHandler o now (some sym)
        ⟨cP, fsP⟩).1.cache.entries.find? fun x => x.key == k') =
      cP.entries.find? (fun x => x.key == k')) ∧
    IndexJs.quoteHandler o now (some sym) ⟨cB, fsB⟩ =
      (⟨⟨eB :: cB.entries.filter
          fun x => !(x.key == ("quote:") ++ jsToUpper (jsTrim sym))⟩,
        fsB⟩, .ok eB.val) ∧
    (∀ k', ((IndexJs.quoteHandler o now (some sym)
        ⟨cB, fsB⟩).1.cache.entries.find? fun x => x.key == k') =
      cB.entries.find? (fun x => x.key == k')) := by
  have hP := PartThree.p3_handler_hit o now sym cP fsP eP hsym hfP hexpP
  have hB := IndexJs.ixjs_handler_hit o now sym cB fsB eB hsymB hfB hexpB
  refine ⟨hP, ?_, hB, ?_⟩
  · intro k'
    rw [hP]
    exact Cache.get_hit_frame cP (("quote:") ++ jsToUpper sym) eP hfP k'
  · intro k'
    rw [hB]
    exact Cache.get_hit_frame cB (("quote:") ++ jsToUpper (jsTrim sym)) eB hfB k'

/-- Witness for `cache_hit_no_upstream` on a one-entry cache. -/
theorem cache_hit_no_upstream_witness :
    (¬ ("aapl" : String) = ("") ∧ ¬ jsTrim ("aapl") = ("") ∧
     cacheWithAapl.entries.find?
       (fun x => x.key == ("quote:") ++ jsToUpper ("aapl")) =
         some ⟨("quote:AAPL"), scoredSample, 1000⟩ ∧
     (0 : ℕ) < 1000 ∧
     cacheWithAaplB.entries.find?
       (fun x => x.key == ("quote:") ++ jsToUpper (jsTrim ("aapl"))) =
         some ⟨("quote:AAPL"), scoredSampleB, 1000⟩) ∧
    (PartThree.quoteHandler oracleDown 0 (some ("aapl")) ⟨cacheWithAapl, stValid⟩ =
      (⟨⟨(⟨("quote:AAPL"), scoredSample, 1000⟩ : CacheEntry PartThree.Scored) ::
          cacheWithAapl.entries.filter
            fun x => !(x.key == ("quote:") ++ jsToUpper ("aapl"))⟩, stValid⟩,
        .ok scoredSample) ∧
    (∀ k', ((PartThree.quoteHandler oracleDown 0 (some ("aapl"))
        ⟨cacheWithAapl, stValid⟩).1.cache.entries.find? fun x => x.key == k') =
      cacheWithAapl.entries.find? (fun x => x.key == k')) ∧
    IndexJs.quoteHandler oracleDown 0 (some ("aapl")) ⟨cacheWithAaplB, stValidB⟩ =
      (⟨⟨(⟨("quote:AAPL"), scoredSampleB, 1000⟩ : CacheEntry IndexJs.Scored) ::
          cacheWithAaplB.entries.filter
            fun x => !(x.key == ("quote:") ++ jsToUpper (jsTrim ("aapl")))⟩,
        stValidB⟩, .ok scoredSampleB) ∧
    (∀ k', ((IndexJs.quoteHandler oracleDown 0 (some ("aapl"))
        ⟨cacheWithAaplB, stValidB⟩).1.cache.entries.find? fun x => x.key == k') =
      cacheWithAaplB.entries.find? (fun x => x.key == k'))) :=
  ⟨⟨by decide, by decide, by decide, by decide, by decide⟩,
    cache_hit_no_upstream oracleDown 0 ("aapl") cacheWithAapl cacheWithAaplB
      stValid stValidB ⟨("quote:AAPL"), scoredSample, 1000⟩
      ⟨("quote:AAPL"), scoredSampleB, 1000⟩ (by decide) (by decide) (by decide)
      (by decide) (by decide) (by decide)⟩

namespace PartThree

lemma p3_handler_miss_success (o : Oracle) (now : ℕ) (sym : String)
    (c : Cache Scored) (fs fsN : St) (q : HQuote)
    (hsym : ¬ sym = (""))
    (hmiss : c.hasKey (("quote:") ++ jsToUpper sym) now = false)
    (hrun : runFetch o now fs = (fsN, .ok (some q))) :
    quoteHandler o now (some sym) ⟨c, fs⟩ =
      (⟨c.set (("quote:") ++ jsToUpper sym)
          { symbol := q.symbol, price := q.price, pe := q.pe,
            forwardPE := q.forwardPE,
            score := computeScore q.pe q.forwardPE } now, fsN⟩,
        .ok { symbol := q.symbol, price := q.price, pe := q.pe,
              forwardPE := q.forwardPE,
              score := computeScore q.pe q.forwardPE }) := by
  unfold quoteHandler
  simp only []
  rw [if_neg hsym, hmiss]
  simp only [Bool.false_eq_true, if_false]
  rw [hrun]

end PartThree

namespace IndexJs

lemma ixjs_handler_miss_success (o : Oracle) (now : ℕ) (sym : String)
    (c : Cache Scored) (fs fsN : St) (q : BQuote)
    (hsym : ¬ jsTrim sym = (""))
    (hmiss : c.hasKey (("quote:") ++ jsToUpper (jsTrim sym)) now = false)
    (hrun : fetchYahooQuote o now (jsTrim sym) fs = (fsN, .ok (some q))) :
    quoteHandler o now (some sym) ⟨c, fs⟩ =
      (⟨c.set (("quote:") ++ jsToUpper (jsTrim sym))
          { symbol := q.symbol, price := q.price, pe := q.pe,
            forwardPE := q.forwardPE,
            score := computeScore (JsVal.ofOpt q.pe) (JsVal.ofOpt q.forwardPE) }
          now, fsN⟩,
        .ok { symbol := q.symbol, price := q.price, pe := q.pe,
              forwardPE := q.forwardPE,
              score := computeScore (JsVal.ofOpt q.pe)
                (JsVal.ofOpt q.forwardPE) }) := by
  unfold quoteHandler
  simp only [Option.getD]
  rw [if_neg hsym, hmiss]
  simp only [Bool.false_eq_true, if_false]
  rw [hrun]

end IndexJs

/-- Claim C8: on a cache miss with a successful upstream fetch, each
handler writes exactly one scored record into the cache — by a single `set`
under `"quote:" + uppercased symbol`, which afterwards resolves that key to
the freshly stamped entry — and returns that same record. -/
theorem cache_miss_writes_once (o : Oracle) (now : ℕ) (sym : String)
    (cP : Cache PartThree.Scored) (cB : Cache IndexJs.Scored)
    (fsP fsPN : PartThree.St) (fsB fsBN : IndexJs.St)
    (q : PartThree.HQuote) (qB : IndexJs.BQuote)
    (hsym : ¬ sym = ("")) (hsymB : ¬ jsTrim sym = (""))
    (hmiss : cP.hasKey (("quote:") ++ jsToUpper sym) now = false)
    (hmissB : cB.hasKey (("quote:") ++ jsToUpper (jsTrim sym)) now = false)
    (hrun : PartThree.runFetch o now fsP = (fsPN, .ok (some q)))
    (hrunB : IndexJs.fetchYahooQuote o now (jsTrim sym) fsB = (fsBN, .ok (some qB))) :
    PartThree.quoteHandler o now (some sym) ⟨cP, fsP⟩ =
      (⟨cP.set (("quote:") ++ jsToUpper sym)
          { symbol := q.symbol, price := q.price, pe := q.pe,
            forwardPE := q.forwardPE,
            score := PartThree.computeScore q.pe q.forwardPE } now, fsPN⟩,
        .ok { symbol := q.symbol, price := q.price, pe := q.pe,
              forwardPE := q.forwardPE,
              score := PartThree.computeScore q.pe q.forwardPE }) ∧
    ((cP.set (("quote:") ++ jsToUpper sym)
        { symbol := q.symbol, price := q.price, pe := q.pe,
          forwardPE := q.forwardPE,
          score := PartThree.computeScore q.pe q.forwardPE } now).entries.find?
      fun x => x.key == ("quote:") ++ jsToUpper sym) =
      some ⟨("quote:") ++ jsToUpper sym,
        { symbol := q.symbol, price := q.price, pe := q.pe,
          forwardPE := q.forwardPE,
          score := PartThree.computeScore q.pe q.forwardPE }, now + 300000⟩ ∧
    IndexJs.quoteHandler o now (some sym) ⟨cB, fsB⟩ =
      (⟨cB.set (("quote:") ++ jsToUpper (jsTrim sym))
          { symbol := qB.symbol, price := qB.price, pe := qB.pe,
            forwardPE := qB.forwardPE,
            score := IndexJs.computeScore (JsVal.ofOpt qB.pe)
              (JsVal.ofOpt qB.forwardPE) } now, fsBN⟩,
        .ok { symbol := qB.symbol, price := qB.price, pe := qB.pe,
              forwardPE := qB.forwardPE,
              score := IndexJs.computeScore (JsVal.ofOpt qB.pe)
                (JsVal.ofOpt qB.forwardPE) }) ∧
    ((cB.set (("quote:") ++ jsToUpper (jsTrim sym))
        { symbol := qB.symbol, price := qB.price, pe := qB.pe,
          forwardPE := qB.forwardPE,
          score := IndexJs.computeScore (JsVal.ofOpt qB.pe)
            (JsVal.ofOpt qB.forwardPE) } now).entries.find?
      fun x => x.key == ("quote:") ++ jsToUpper (jsTrim sym)) =
      some ⟨("quote:") ++ jsToUpper (jsTrim sym),
        { symbol := qB.symbol, price := qB.price, pe := qB.pe,
          forwardPE := qB.forwardPE,
          score := IndexJs.computeScore (JsVal.ofOpt qB.pe)
            (JsVal.ofOpt qB.forwardPE) }, now + 300000⟩ :=
  ⟨PartThree.p3_handler_miss_success o now sym cP fsP fsPN q hsym hmiss hrun,
   Cache.set_find cP _ _ now,
   IndexJs.ixjs_handler_miss_success o now sym cB fsB fsBN qB hsymB hmissB hrunB,
   Cache.set_find cB _ _ now⟩

/-- Witness for `cache_miss_writes_once` on a 200 response carrying
`rawGood`, starting from empty caches. -/
theorem cache_miss_writes_once_witness :
    (¬ ("aapl" : String) = ("") ∧ ¬ jsTrim ("aapl") = ("") ∧
     emptyCacheP.hasKey (("quote:") ++ jsToUpper ("aapl")) 0 = false ∧
     emptyCacheB.hasKey (("quote:") ++ jsToUpper (jsTrim ("aapl"))) 0 = false ∧
     PartThree.runFetch oracle200 0 stValid = (stAfterP, .ok (some qPSample)) ∧
     IndexJs.fetchYahooQuote oracle200 0 (jsTrim ("aapl")) stValidB =
       (stAfterB, .ok (some qBSample))) ∧
    (PartThree.quoteHandler oracle200 0 (some ("aapl")) ⟨emptyCacheP, stValid⟩ =
      (⟨emptyCacheP.set (("quote:") ++ jsToUpper ("aapl"))
          { symbol := qPSample.symbol, price := qPSample.price,
            pe := qPSample.pe, forwardPE := qPSample.forwardPE,
            score := PartThree.computeScore qPSample.pe qPSample.forwardPE } 0,
        stAfterP⟩,
        .ok { symbol := qPSample.symbol, price := qPSample.price,
              pe := qPSample.pe, forwardPE := qPSample.forwardPE,
              score := PartThree.computeScore qPSample.pe qPSample.forwardPE }) ∧
    ((emptyCacheP.set (("quote:") ++ jsToUpper ("aapl"))
        { symbol := qPSample.symbol, price := qPSample.price,
          pe := qPSample.pe, forwardPE := qPSample.forwardPE,
          score := PartThree.computeScore qPSample.pe qPSample.forwardPE }
        0).entries.find?
      fun x => x.key == ("quote:") ++ jsToUpper ("aapl")) =
      some ⟨("quote:") ++ jsToUpper ("aapl"),
        { symbol := qPSample.symbol, price := qPSample.price,
          pe := qPSample.pe, forwardPE := qPSample.forwardPE,
          score := PartThree.computeScore qPSample.pe qPSample.forwardPE },
        0 + 300000⟩ ∧
    IndexJs.quoteHandler oracle200 0 (some ("aapl")) ⟨emptyCacheB, stValidB⟩ =
      (⟨emptyCacheB.set (("quote:") ++ jsToUpper (jsTrim ("aapl")))
          { symbol := qBSample.symbol, price := qBSample.price,
            pe := qBSample.pe, forwardPE := qBSample.forwardPE,
            score := IndexJs.computeScore (JsVal.ofOpt qBSample.pe)
              (JsVal.ofOpt qBSample.forwardPE) } 0, stAfterB⟩,
        .ok { symbol := qBSample.symbol, price := qBSample.price,
              pe := qBSample.pe, forwardPE := qBSample.forwardPE,
              score := IndexJs.computeScore (JsVal.ofOpt qBSample.pe)
                (JsVal.ofOpt qBSample.forwardPE) }) ∧
    ((emptyCacheB.set (("quote:") ++ jsToUpper (jsTrim ("aapl")))
        { symbol := qBSample.symbol, price := qBSample.price,
          pe := qBSample.pe, forwardPE := qBSample.forwardPE,
          score := IndexJs.computeScore (JsVal.ofOpt qBSample.pe)
            (JsVal.ofOpt qBSample.forwardPE) } 0).entries.find?
      fun x => x.key == ("quote:") ++ jsToUpper (jsTrim ("aapl"))) =
      some ⟨("quote:") ++ jsToUpper (jsTrim ("aapl")),
        { symbol := qBSample.symbol, price := qBSample.price,
          pe := qBSample.pe, forwardPE := qBSample.forwardPE,
          score := IndexJs.computeScore (JsVal.ofOpt qBSample.pe)
            (JsVal.ofOpt qBSample.forwardPE) }, 0 + 300000⟩) :=
  ⟨⟨by decide, by decide, by decide, by decide, by decide, by decide⟩,
    cache_miss_writes_once oracle200 0 ("aapl") emptyCacheP emptyCacheB stValid
      stAfterP stValidB stAfterB qPSample qBSample (by decide) (by decide)
      (by decide) (by decide) (by decide) (by decide)⟩

/-! ## C1: the composite score -/

/-- Amended C1: the exclusion-based `computeScore` of index.js implements
exactly the claim's formula (reciprocals of strictly positive numeric
inputs, neutral 50 fallbacks, `round(clamp(mean * 100, 0, 100))`), with the
claimed values; the clamp-based `computeScore` of part_003 does not: it
returns 50 unless BOTH inputs are numbers, clamps non-positive inputs at
0.0001 instead of excluding them, and computes `(1/pe + 1/forwardPE) * 10`
unrounded, so `computeScore(10, null) = 50` and both
`computeScore(-5, 20)` and `computeScore(0, 0)` saturate at 100. -/
theorem computeScore_characterization :
    (∀ pe forwardPE, IndexJs.computeScore pe forwardPE =
      computeScoreSpec pe forwardPE) ∧
    IndexJs.computeScore .nonNum .nonNum = 50 ∧
    IndexJs.computeScore (.num 10) .nonNum = 10 ∧
    IndexJs.computeScore (.num (-5)) (.num 20) = 5 ∧
    IndexJs.computeScore (.num 0) (.num 0) = 50 ∧
    PartThree.computeScore .nonNum .nonNum = 50 ∧
    PartThree.computeScore (.num 10) .nonNum = 50 ∧
    PartThree.computeScore (.num (-5)) (.num 20) = 100 ∧
    PartThree.computeScore (.num 0) (.num 0) = 100 := by
  refine ⟨computeScore_eq_spec, ?_, ?_, ?_, ?_, rfl, rfl, ?_, ?_⟩
  · simp only [IndexJs.computeScore, posReciprocals, JsVal.isNum]
    norm_num
  · simp only [IndexJs.computeScore, posReciprocals, JsVal.isNum]
    norm_num [jsRound, jsMax, jsMin]
  · simp only [IndexJs.computeScore, posReciprocals, JsVal.isNum]
    norm_num [jsRound, jsMax, jsMin]
  · simp only [IndexJs.computeScore, posReciprocals, JsVal.isNum]
    norm_num
  · simp only [PartThree.computeScore]
    norm_num [jsMax, jsMin]
  · simp only [PartThree.computeScore]
    norm_num [jsMax, jsMin]

/-- Counterexample to claim C1 as stated: the `computeScore` of part_003
(one of the claim's two cited code places) disagrees with the claimed
values at `(10, null)` and `(-5, 20)`. -/
theorem computeScore_counterexample :
    PartThree.computeScore (.num 10) .nonNum = 50 ∧
    ¬ (PartThree.computeScore (.num 10) .nonNum = 10) ∧
    PartThree.computeScore (.num (-5)) (.num 20) = 100 ∧
    ¬ (PartThree.computeScore (.num (-5)) (.num 20) = 5) := by
  have h1 : PartThree.computeScore (.num 10) .nonNum = 50 := rfl
  have h2 : PartThree.computeScore (.num (-5)) (.num 20) = 100 := by
    simp only [PartThree.computeScore]
    norm_num [jsMax, jsMin]
  refine ⟨h1, ?_, h2, ?_⟩
  · rw [h1]; norm_num
  · rw [h2]; norm_num
